import Mathlib

/-! # Brook PS5 controller board driver

A shallow embedding of `brook_ps5.c`: the report decoder
(`brook_ps5_parse_report`), the dispatch entry point (`brook_ps5_raw_event`),
the open/close callbacks and the attach/detach entry points, followed by the
properties established for them.

Conventions of the embedding.

* A `u8` is a natural number below 256 (`Fin 256`); a C `int` that carries an
  event value is an `Int`.
* The pair `(data, size)` handed over by the HID core is one byte buffer; it is
  embedded as the list of its bytes, and `size` is the length of that list.
* Calls into the input subsystem (`input_report_abs`, `input_report_key`,
  `input_sync`) and into the HID transport (`hid_hw_open`, `hid_hw_close`,
  `hid_hw_stop`, ...) are not executed; every function returns the list of
  the calls it makes, in program order, next to the state it leaves behind.
* A pointer that may be `NULL` is an `Option`.
-/

namespace BrookPS5

/-- An unsigned 8-bit machine value, the C type `u8`. -/
abbrev u8 := Fin 256

/-! ## Constants of the driver -/

def BROOK_BTN_TRIANGLE : Nat := 0x80
def BROOK_BTN_CIRCLE : Nat := 0x40
def BROOK_BTN_CROSS : Nat := 0x20
def BROOK_BTN_SQUARE : Nat := 0x10
def BROOK_BTN_L1 : Nat := 0x08
def BROOK_BTN_R1 : Nat := 0x04
def BROOK_BTN_L2 : Nat := 0x02
def BROOK_BTN_R2 : Nat := 0x01

def BROOK_BTN_SELECT : Nat := 0x80
def BROOK_BTN_START : Nat := 0x40
def BROOK_BTN_L3 : Nat := 0x20
def BROOK_BTN_R3 : Nat := 0x10
def BROOK_BTN_PS : Nat := 0x08

def BROOK_DPAD_UP : Nat := 0x00
def BROOK_DPAD_UP_RIGHT : Nat := 0x01
def BROOK_DPAD_RIGHT : Nat := 0x02
def BROOK_DPAD_DOWN_RIGHT : Nat := 0x03
def BROOK_DPAD_DOWN : Nat := 0x04
def BROOK_DPAD_DOWN_LEFT : Nat := 0x05
def BROOK_DPAD_LEFT : Nat := 0x06
def BROOK_DPAD_UP_LEFT : Nat := 0x07
def BROOK_DPAD_NEUTRAL : Nat := 0x08

/-! ## Event codes of the Linux input subsystem

The driver takes these from `linux/input.h`; the values are the ones of the
kernel header `input-event-codes.h`. -/

def EV_KEY : Nat := 0x01
def EV_ABS : Nat := 0x03

def ABS_X : Nat := 0x00
def ABS_Y : Nat := 0x01
def ABS_Z : Nat := 0x02
def ABS_RX : Nat := 0x03
def ABS_RY : Nat := 0x04
def ABS_RZ : Nat := 0x05
def ABS_HAT0X : Nat := 0x10
def ABS_HAT0Y : Nat := 0x11

def BTN_A : Nat := 0x130
def BTN_B : Nat := 0x131
def BTN_X : Nat := 0x133
def BTN_Y : Nat := 0x134
def BTN_TL : Nat := 0x136
def BTN_TR : Nat := 0x137
def BTN_TL2 : Nat := 0x138
def BTN_TR2 : Nat := 0x139
def BTN_SELECT : Nat := 0x13a
def BTN_START : Nat := 0x13b
def BTN_MODE : Nat := 0x13c
def BTN_THUMBL : Nat := 0x13d
def BTN_THUMBR : Nat := 0x13e

/-- The value `ENOMEM` of `errno-base.h`; the driver returns `-ENOMEM`. -/
def ENOMEM : Int := 12

/-! ## Data model -/

/-- The range and filter parameters `input_set_abs_params` records for an axis. -/
structure input_absinfo where
  minimum : Int
  maximum : Int
  fuzz : Int
  flat : Int
deriving DecidableEq

/-- The part of `struct input_dev` the driver writes: its name, the
capability bitmaps (each as the list of the bits that were set, latest first),
the per-axis parameters, and whether `input_register_device` accepted it. -/
structure input_dev where
  name : String
  evbit : List Nat
  keybit : List Nat
  absbit : List Nat
  absinfo : List (Nat × input_absinfo)
  registered : Bool
deriving DecidableEq

/-- The session object `struct brook_ps5_device`. The back pointer `hdev` and
the unused `worker` are left out: the session is reached from its
`hid_device`, see `hid_device.drvdata`. The array `buttons[2]` is the pair
of fields `buttons0`, `buttons1`. -/
structure brook_ps5_device where
  input : Option input_dev
  opened : Bool
  buttons0 : u8
  buttons1 : u8
  left_stick_x : u8
  left_stick_y : u8
  right_stick_x : u8
  right_stick_y : u8
  left_trigger : u8
  right_trigger : u8
  dpad : u8
deriving DecidableEq

/-- The part of `struct hid_device` the driver uses: the driver data pointer
read by `hid_get_drvdata`, `none` when no session is attached. -/
structure hid_device where
  drvdata : Option brook_ps5_device
deriving DecidableEq

/-- A call the decoder makes on its input endpoint `brook->input`:
`input_report_abs (input, code, value)`, `input_report_key (input, code, value)`
or `input_sync (input)`. The value is the C `int` handed over. -/
inductive input_call where
  | input_report_abs (code : Nat) (value : Int)
  | input_report_key (code : Nat) (value : Int)
  | input_sync
deriving DecidableEq

/-- The kernel services the lifecycle functions call. -/
inductive hid_fn where
  | hid_parse
  | hid_hw_start
  | hid_hw_stop
  | hid_hw_open
  | hid_hw_close
  | devm_input_allocate_device
  | input_register_device
deriving DecidableEq

/-- One call of a kernel service, logged together with the value the
session's `opened` flag has at the moment of the call (`none` when the device
has no session). -/
structure hid_call where
  fn : hid_fn
  opened : Option Bool
deriving DecidableEq

/-! ## The report decoder -/

/-- The `switch (brook->dpad)` of `brook_ps5_parse_report`: the two hat calls
made for a stored dpad value. -/
def report_dpad (dpad : Nat) : List input_call :=
  if dpad = BROOK_DPAD_UP then
    [.input_report_abs ABS_HAT0X 0, .input_report_abs ABS_HAT0Y (-1)]
  else if dpad = BROOK_DPAD_UP_RIGHT then
    [.input_report_abs ABS_HAT0X 1, .input_report_abs ABS_HAT0Y (-1)]
  else if dpad = BROOK_DPAD_RIGHT then
    [.input_report_abs ABS_HAT0X 1, .input_report_abs ABS_HAT0Y 0]
  else if dpad = BROOK_DPAD_DOWN_RIGHT then
    [.input_report_abs ABS_HAT0X 1, .input_report_abs ABS_HAT0Y 1]
  else if dpad = BROOK_DPAD_DOWN then
    [.input_report_abs ABS_HAT0X 0, .input_report_abs ABS_HAT0Y 1]
  else if dpad = BROOK_DPAD_DOWN_LEFT then
    [.input_report_abs ABS_HAT0X (-1), .input_report_abs ABS_HAT0Y 1]
  else if dpad = BROOK_DPAD_LEFT then
    [.input_report_abs ABS_HAT0X (-1), .input_report_abs ABS_HAT0Y 0]
  else if dpad = BROOK_DPAD_UP_LEFT then
    [.input_report_abs ABS_HAT0X (-1), .input_report_abs ABS_HAT0Y (-1)]
  else
    [.input_report_abs ABS_HAT0X 0, .input_report_abs ABS_HAT0Y 0]

/-- The function `brook_ps5_parse_report (brook, data, size)` with
`size = data.length`: the session it leaves behind and the calls it makes on
`brook->input`, in program order. -/
def brook_ps5_parse_report (brook : brook_ps5_device) (data : List u8) :
    brook_ps5_device × List input_call :=
  if h : data.length < 12 then
    (brook, [])
  else
    /- Parse analog sticks (bytes 1-4) -/
    let brook := { brook with left_stick_x := data.get ⟨1, by omega⟩ }
    let brook := { brook with left_stick_y := data.get ⟨2, by omega⟩ }
    let brook := { brook with right_stick_x := data.get ⟨3, by omega⟩ }
    let brook := { brook with right_stick_y := data.get ⟨4, by omega⟩ }
    /- Parse triggers (bytes 5-6) -/
    let brook := { brook with left_trigger := data.get ⟨5, by omega⟩ }
    let brook := { brook with right_trigger := data.get ⟨6, by omega⟩ }
    /- Parse buttons (bytes 7-8) -/
    let brook := { brook with buttons0 := data.get ⟨7, by omega⟩ }
    let brook := { brook with buttons1 := data.get ⟨8, by omega⟩ }
    /- Parse D-pad (lower 4 bits of byte 7), stored back into a u8 -/
    let brook := { brook with
      dpad := ⟨((data.get ⟨7, by omega⟩).val &&& 0x0f) % 256, Nat.mod_lt _ (by decide)⟩ }
    (brook,
      [ /- Report analog sticks -/
        .input_report_abs ABS_X brook.left_stick_x.val,
        .input_report_abs ABS_Y brook.left_stick_y.val,
        .input_report_abs ABS_RX brook.right_stick_x.val,
        .input_report_abs ABS_RY brook.right_stick_y.val,
        /- Report triggers -/
        .input_report_abs ABS_Z brook.left_trigger.val,
        .input_report_abs ABS_RZ brook.right_trigger.val,
        /- Report face buttons -/
        .input_report_key BTN_A (brook.buttons0.val &&& BROOK_BTN_CROSS : Nat),
        .input_report_key BTN_B (brook.buttons0.val &&& BROOK_BTN_CIRCLE : Nat),
        .input_report_key BTN_X (brook.buttons0.val &&& BROOK_BTN_SQUARE : Nat),
        .input_report_key BTN_Y (brook.buttons0.val &&& BROOK_BTN_TRIANGLE : Nat),
        /- Report shoulder buttons -/
        .input_report_key BTN_TL (brook.buttons0.val &&& BROOK_BTN_L1 : Nat),
        .input_report_key BTN_TR (brook.buttons0.val &&& BROOK_BTN_R1 : Nat),
        .input_report_key BTN_TL2 (brook.buttons0.val &&& BROOK_BTN_L2 : Nat),
        .input_report_key BTN_TR2 (brook.buttons0.val &&& BROOK_BTN_R2 : Nat),
        /- Report control buttons -/
        .input_report_key BTN_SELECT (brook.buttons1.val &&& BROOK_BTN_SELECT : Nat),
        .input_report_key BTN_START (brook.buttons1.val &&& BROOK_BTN_START : Nat),
        .input_report_key BTN_THUMBL (brook.buttons1.val &&& BROOK_BTN_L3 : Nat),
        .input_report_key BTN_THUMBR (brook.buttons1.val &&& BROOK_BTN_R3 : Nat),
        .input_report_key BTN_MODE (brook.buttons1.val &&& BROOK_BTN_PS : Nat) ]
      /- Report D-pad as HAT0 -/
      ++ report_dpad brook.dpad.val
      ++ [.input_sync])

/-- The function `brook_ps5_raw_event (hdev, report, data, size)`: the device
it leaves behind, the calls made on the input endpoint, and the return value.
The parameter `report` is not read by the function. -/
def brook_ps5_raw_event (hdev : hid_device) (data : List u8) :
    hid_device × List input_call × Int :=
  match hdev.drvdata with
  | none => (hdev, [], 0)
  | some brook =>
    match brook.input with
    | none => (hdev, [], 0)
    | some _ =>
      let r := brook_ps5_parse_report brook data
      ({ hdev with drvdata := some r.1 }, r.2, 0)

/-! ## Open, close, detach -/

/-- The function `brook_ps5_input_open`, on the session `input_get_drvdata`
returns; `ret` is the value `hid_hw_open` returns. Gives the session left
behind, the transport calls made and the return value. -/
def brook_ps5_input_open (brook : brook_ps5_device) (ret : Int) :
    brook_ps5_device × List hid_call × Int :=
  let calls := [hid_call.mk .hid_hw_open (some brook.opened)]
  if ret ≠ 0 then
    (brook, calls, ret)
  else
    ({ brook with opened := true }, calls, 0)

/-- The function `brook_ps5_input_close`, on the session `input_get_drvdata`
returns: the session left behind and the transport calls made. -/
def brook_ps5_input_close (brook : brook_ps5_device) :
    brook_ps5_device × List hid_call :=
  let brook := { brook with opened := false }
  (brook, [hid_call.mk .hid_hw_close (some brook.opened)])

/-- The function `brook_ps5_remove`: the device left behind (the function
writes to no field) and the transport calls made, in program order. -/
def brook_ps5_remove (hdev : hid_device) : hid_device × List hid_call :=
  let brook := hdev.drvdata
  let opened := brook.map (fun b => b.opened)
  let calls : List hid_call :=
    match brook with
    | some b => if b.opened then [hid_call.mk .hid_hw_close opened] else []
    | none => []
  (hdev, calls ++ [hid_call.mk .hid_hw_stop opened])

/-! ## Attach -/

/-- The kernel helper `__set_bit (nr, addr)` on a capability bitmap, kept as
the list of the bits set: the bit is put in front. -/
def __set_bit (nr : Nat) (bitmap : List Nat) : List Nat :=
  nr :: bitmap

/-- The kernel function `input_set_abs_params (dev, axis, min, max, fuzz, flat)`:
it records the four parameters for the axis and marks `EV_ABS` and the axis
in the capability bitmaps. -/
def input_set_abs_params (dev : input_dev) (axis : Nat) (min max fuzz flat : Int) :
    input_dev :=
  { dev with
    absinfo := (axis, { minimum := min, maximum := max, fuzz := fuzz, flat := flat })
      :: dev.absinfo
    evbit := __set_bit EV_ABS dev.evbit
    absbit := __set_bit axis dev.absbit }

/-- The zero-filled input device `devm_input_allocate_device` hands out, as
far as the driver's fields go. -/
def input_dev_zero : input_dev :=
  { name := "", evbit := [], keybit := [], absbit := [], absinfo := [], registered := false }

/-- The zero-filled session `devm_kzalloc` hands out. -/
def brook_ps5_device_zero : brook_ps5_device :=
  { input := none, opened := false, buttons0 := 0, buttons1 := 0,
    left_stick_x := 0, left_stick_y := 0, right_stick_x := 0, right_stick_y := 0,
    left_trigger := 0, right_trigger := 0, dpad := 0 }

/-- The function `brook_ps5_setup_input`. `alloc_ok` tells whether
`devm_input_allocate_device` returned a device and `register_ret` is the
value `input_register_device` returns. Gives the session left behind, the
kernel services called, and the return value. The identity fields copied
from `hdev` (`phys`, `uniq`, `id`, `dev.parent`) and the two callbacks are
not part of the model of `input_dev`. -/
def brook_ps5_setup_input (brook : brook_ps5_device) (alloc_ok : Bool)
    (register_ret : Int) : brook_ps5_device × List hid_call × Int :=
  let calls := [hid_call.mk .devm_input_allocate_device (some brook.opened)]
  if !alloc_ok then
    (brook, calls, -ENOMEM)
  else
    let input := input_dev_zero
    let input := { input with name := "Brook PS5 Controller" }
    /- Set up button capabilities -/
    let input := { input with evbit := __set_bit EV_KEY input.evbit }
    let input := { input with keybit := __set_bit BTN_A input.keybit }
    let input := { input with keybit := __set_bit BTN_B input.keybit }
    let input := { input with keybit := __set_bit BTN_X input.keybit }
    let input := { input with keybit := __set_bit BTN_Y input.keybit }
    let input := { input with keybit := __set_bit BTN_TL input.keybit }
    let input := { input with keybit := __set_bit BTN_TR input.keybit }
    let input := { input with keybit := __set_bit BTN_TL2 input.keybit }
    let input := { input with keybit := __set_bit BTN_TR2 input.keybit }
    let input := { input with keybit := __set_bit BTN_SELECT input.keybit }
    let input := { input with keybit := __set_bit BTN_START input.keybit }
    let input := { input with keybit := __set_bit BTN_THUMBL input.keybit }
    let input := { input with keybit := __set_bit BTN_THUMBR input.keybit }
    let input := { input with keybit := __set_bit BTN_MODE input.keybit }
    /- Set up absolute axis capabilities -/
    let input := { input with evbit := __set_bit EV_ABS input.evbit }
    /- Analog sticks -/
    let input := input_set_abs_params input ABS_X 0 255 0 0
    let input := input_set_abs_params input ABS_Y 0 255 0 0
    let input := input_set_abs_params input ABS_RX 0 255 0 0
    let input := input_set_abs_params input ABS_RY 0 255 0 0
    /- Triggers -/
    let input := input_set_abs_params input ABS_Z 0 255 0 0
    let input := input_set_abs_params input ABS_RZ 0 255 0 0
    /- D-pad as HAT -/
    let input := input_set_abs_params input ABS_HAT0X (-1) 1 0 0
    let input := input_set_abs_params input ABS_HAT0Y (-1) 1 0 0
    let calls := calls ++ [hid_call.mk .input_register_device (some brook.opened)]
    if register_ret ≠ 0 then
      ({ brook with input := some input }, calls, register_ret)
    else
      ({ brook with input := some { input with registered := true } }, calls, 0)

/-- What the kernel services called by `brook_ps5_probe` return: whether
`devm_kzalloc` and `devm_input_allocate_device` gave memory, and the return
values of `hid_parse`, `hid_hw_start` and `input_register_device`. -/
structure probe_env where
  kzalloc_ok : Bool
  hid_parse_ret : Int
  hid_hw_start_ret : Int
  input_alloc_ok : Bool
  input_register_ret : Int
deriving DecidableEq

/-- The function `brook_ps5_probe`: the device left behind, the kernel
services called, in program order, and the return value. -/
def brook_ps5_probe (hdev : hid_device) (env : probe_env) :
    hid_device × List hid_call × Int :=
  if !env.kzalloc_ok then
    (hdev, [], -ENOMEM)
  else
    let brook := brook_ps5_device_zero
    let hdev := { hdev with drvdata := some brook }
    let calls := [hid_call.mk .hid_parse (some brook.opened)]
    if env.hid_parse_ret ≠ 0 then
      (hdev, calls, env.hid_parse_ret)
    else
      let calls := calls ++ [hid_call.mk .hid_hw_start (some brook.opened)]
      if env.hid_hw_start_ret ≠ 0 then
        (hdev, calls, env.hid_hw_start_ret)
      else
        let r := brook_ps5_setup_input brook env.input_alloc_ok env.input_register_ret
        let hdev := { hdev with drvdata := some r.1 }
        let calls := calls ++ r.2.1
        if r.2.2 ≠ 0 then
          (hdev, calls ++ [hid_call.mk .hid_hw_stop (some r.1.opened)], r.2.2)
        else
          (hdev, calls, 0)

/-- The kernel services all succeeding. -/
def probe_env_ok : probe_env :=
  { kzalloc_ok := true, hid_parse_ret := 0, hid_hw_start_ret := 0,
    input_alloc_ok := true, input_register_ret := 0 }

/-! ## Sample values -/

/-- A registered input endpoint with no capability recorded. -/
def sample_input : input_dev :=
  { name := "Brook PS5 Controller", evbit := [], keybit := [], absbit := [],
    absinfo := [], registered := true }

/-- A zero-filled session (as `devm_kzalloc` gives it) with an input
endpoint attached and `opened` as given. -/
def sample_session (opened : Bool) : brook_ps5_device :=
  { input := some sample_input, opened := opened, buttons0 := 0, buttons1 := 0,
    left_stick_x := 0, left_stick_y := 0, right_stick_x := 0, right_stick_y := 0,
    left_trigger := 0, right_trigger := 0, dpad := 0 }

/-- The nine bytes of scenario A. -/
def scenario_a_bytes : List u8 := [0x01, 128, 128, 128, 128, 0, 255, 0x20, 0x40]

/-- The nine bytes of scenario A followed by three zero bytes: a report of size 12. -/
def scenario_a_report : List u8 := scenario_a_bytes ++ [0, 0, 0]

/-- A report of 12 bytes with byte 7 = 0xA5 and byte 8 = 0x5B. -/
def sample_report : List u8 := [0x01, 10, 20, 30, 40, 50, 60, 0xA5, 0x5B, 7, 8, 9]

/-! ## Observations on a list of calls -/

/-- The values of the `input_report_abs` calls made for axis `code`, in order. -/
def abs_values (code : Nat) (calls : List input_call) : List Int :=
  calls.filterMap fun c =>
    match c with
    | .input_report_abs c v => if c = code then some v else none
    | _ => none

/-- The values of the `input_report_key` calls made for key `code`, in order. -/
def key_values (code : Nat) (calls : List input_call) : List Int :=
  calls.filterMap fun c =>
    match c with
    | .input_report_key c v => if c = code then some v else none
    | _ => none

/-- The hat pair a list of calls carries: the values reported for
`ABS_HAT0X` and those reported for `ABS_HAT0Y`. -/
def emitted_hat (calls : List input_call) : List Int × List Int :=
  (abs_values ABS_HAT0X calls, abs_values ABS_HAT0Y calls)

/-- The pressed state reported for key `code`: for each `input_report_key`
call with that code, in order, whether its value is non-zero. -/
def key_pressed (code : Nat) (calls : List input_call) : List Bool :=
  (key_values code calls).map fun v => decide (v ≠ 0)

/-- The byte `b` with bit `k` flipped. -/
def flip_bit (b : u8) (k : Nat) : u8 :=
  ⟨(b.val ^^^ 2 ^ k) % 256, Nat.mod_lt _ (by decide)⟩

/-- The pressed states `brook_ps5_parse_report` reports for key `code` when
the button bytes are `b7` and `b8`, following its thirteen
`input_report_key` lines in order. -/
def decoded_keys (b7 b8 : u8) (code : Nat) : List Bool :=
  (if BTN_A = code then [b7.val.testBit 5] else [])
    ++ (if BTN_B = code then [b7.val.testBit 6] else [])
    ++ (if BTN_X = code then [b7.val.testBit 4] else [])
    ++ (if BTN_Y = code then [b7.val.testBit 7] else [])
    ++ (if BTN_TL = code then [b7.val.testBit 3] else [])
    ++ (if BTN_TR = code then [b7.val.testBit 2] else [])
    ++ (if BTN_TL2 = code then [b7.val.testBit 1] else [])
    ++ (if BTN_TR2 = code then [b7.val.testBit 0] else [])
    ++ (if BTN_SELECT = code then [b8.val.testBit 7] else [])
    ++ (if BTN_START = code then [b8.val.testBit 6] else [])
    ++ (if BTN_THUMBL = code then [b8.val.testBit 5] else [])
    ++ (if BTN_THUMBR = code then [b8.val.testBit 4] else [])
    ++ (if BTN_MODE = code then [b8.val.testBit 3] else [])

/-- The control state of a session: the four stick bytes, the two triggers,
the two button bytes and the dpad. -/
def control_state (brook : brook_ps5_device) : List u8 :=
  [brook.left_stick_x, brook.left_stick_y, brook.right_stick_x, brook.right_stick_y,
    brook.left_trigger, brook.right_trigger, brook.buttons0, brook.buttons1, brook.dpad]

/-- Whether a call on the input endpoint stays within what the endpoint
`dev` advertises: a key report names a key of `keybit`; an axis report names
an axis of `absbit` and its value lies within the recorded minimum and
maximum of that axis; a sync is always allowed. -/
def advertised (dev : input_dev) : input_call → Bool
  | .input_report_key code _ => dev.keybit.contains code
  | .input_report_abs code value =>
    dev.absbit.contains code &&
      match dev.absinfo.lookup code with
      | some info => decide (info.minimum ≤ value ∧ value ≤ info.maximum)
      | none => false
  | .input_sync => true

/-! ## Properties of the decoder -/

/-- What `brook_ps5_parse_report` computes on a report of at least 12 bytes,
in terms of the bytes at offsets 1 to 8. -/
theorem parse_report_eq (brook : brook_ps5_device) (data : List u8)
    (h : 12 ≤ data.length) :
    ∃ b1 b2 b3 b4 b5 b6 b7 b8 : u8,
      data[1]? = some b1 ∧ data[2]? = some b2 ∧ data[3]? = some b3 ∧
      data[4]? = some b4 ∧ data[5]? = some b5 ∧ data[6]? = some b6 ∧
      data[7]? = some b7 ∧ data[8]? = some b8 ∧
      brook_ps5_parse_report brook data =
        ({ brook with
            left_stick_x := b1, left_stick_y := b2, right_stick_x := b3,
            right_stick_y := b4, left_trigger := b5, right_trigger := b6,
            buttons0 := b7, buttons1 := b8,
            dpad := ⟨(b7.val &&& 0x0f) % 256, Nat.mod_lt _ (by decide)⟩ },
          [ .input_report_abs ABS_X b1.val, .input_report_abs ABS_Y b2.val,
            .input_report_abs ABS_RX b3.val, .input_report_abs ABS_RY b4.val,
            .input_report_abs ABS_Z b5.val, .input_report_abs ABS_RZ b6.val,
            .input_report_key BTN_A (b7.val &&& BROOK_BTN_CROSS : Nat),
            .input_report_key BTN_B (b7.val &&& BROOK_BTN_CIRCLE : Nat),
            .input_report_key BTN_X (b7.val &&& BROOK_BTN_SQUARE : Nat),
            .input_report_key BTN_Y (b7.val &&& BROOK_BTN_TRIANGLE : Nat),
            .input_report_key BTN_TL (b7.val &&& BROOK_BTN_L1 : Nat),
            .input_report_key BTN_TR (b7.val &&& BROOK_BTN_R1 : Nat),
            .input_report_key BTN_TL2 (b7.val &&& BROOK_BTN_L2 : Nat),
            .input_report_key BTN_TR2 (b7.val &&& BROOK_BTN_R2 : Nat),
            .input_report_key BTN_SELECT (b8.val &&& BROOK_BTN_SELECT : Nat),
            .input_report_key BTN_START (b8.val &&& BROOK_BTN_START : Nat),
            .input_report_key BTN_THUMBL (b8.val &&& BROOK_BTN_L3 : Nat),
            .input_report_key BTN_THUMBR (b8.val &&& BROOK_BTN_R3 : Nat),
            .input_report_key BTN_MODE (b8.val &&& BROOK_BTN_PS : Nat) ]
          ++ report_dpad ((b7.val &&& 0x0f) % 256)
          ++ [.input_sync]) := by
  have hlt : ¬ data.length < 12 := by omega
  refine ⟨data.get ⟨1, by omega⟩, data.get ⟨2, by omega⟩, data.get ⟨3, by omega⟩,
    data.get ⟨4, by omega⟩, data.get ⟨5, by omega⟩, data.get ⟨6, by omega⟩,
    data.get ⟨7, by omega⟩, data.get ⟨8, by omega⟩, ?_, ?_, ?_, ?_, ?_, ?_, ?_, ?_, ?_⟩
  · exact List.getElem?_eq_getElem _
  · exact List.getElem?_eq_getElem _
  · exact List.getElem?_eq_getElem _
  · exact List.getElem?_eq_getElem _
  · exact List.getElem?_eq_getElem _
  · exact List.getElem?_eq_getElem _
  · exact List.getElem?_eq_getElem _
  · exact List.getElem?_eq_getElem _
  · unfold brook_ps5_parse_report
    rw [dif_neg hlt]

/-- C1: on a report shorter than 12 bytes `brook_ps5_parse_report` returns
the session as it was, every field included, and makes no call on the input
endpoint: no axis, key, hat or sync event. -/
theorem parse_report_short (brook : brook_ps5_device) (data : List u8)
    (h : data.length < 12) :
    brook_ps5_parse_report brook data = (brook, []) := by
  unfold brook_ps5_parse_report
  exact dif_pos h

/-- Witness of C1 on a report of nine bytes. -/
theorem parse_report_short_witness :
    scenario_a_bytes.length < 12 ∧
      brook_ps5_parse_report (sample_session true) scenario_a_bytes
        = (sample_session true, []) :=
  ⟨by decide, parse_report_short (sample_session true) scenario_a_bytes (by decide)⟩

/-- C2: on a report of at least 12 bytes the stored state has
`left_stick_x = data[1]`, `left_stick_y = data[2]`, `right_stick_x = data[3]`,
`right_stick_y = data[4]`, `left_trigger = data[5]`, `right_trigger = data[6]`,
`buttons[0] = data[7]`, `buttons[1] = data[8]` and `dpad = data[7] & 0x0F`;
byte 0 and the bytes from offset 9 on influence no field: a second report of
at least 12 bytes that agrees on offsets 1 to 8 leaves the same state. -/
theorem parse_report_fields (brook : brook_ps5_device) (data : List u8)
    (h : 12 ≤ data.length) :
    data[1]? = some (brook_ps5_parse_report brook data).1.left_stick_x ∧
    data[2]? = some (brook_ps5_parse_report brook data).1.left_stick_y ∧
    data[3]? = some (brook_ps5_parse_report brook data).1.right_stick_x ∧
    data[4]? = some (brook_ps5_parse_report brook data).1.right_stick_y ∧
    data[5]? = some (brook_ps5_parse_report brook data).1.left_trigger ∧
    data[6]? = some (brook_ps5_parse_report brook data).1.right_trigger ∧
    data[7]? = some (brook_ps5_parse_report brook data).1.buttons0 ∧
    data[8]? = some (brook_ps5_parse_report brook data).1.buttons1 ∧
    (∃ b7 : u8, data[7]? = some b7 ∧
      (brook_ps5_parse_report brook data).1.dpad.val = b7.val &&& 0x0F) ∧
    (∀ other : List u8, 12 ≤ other.length →
      (∀ i : Nat, 1 ≤ i → i ≤ 8 → other[i]? = data[i]?) →
      (brook_ps5_parse_report brook other).1 = (brook_ps5_parse_report brook data).1) := by
  obtain ⟨b1, b2, b3, b4, b5, b6, b7, b8, h1, h2, h3, h4, h5, h6, h7, h8, heq⟩ :=
    parse_report_eq brook data h
  rw [heq]
  refine ⟨h1, h2, h3, h4, h5, h6, h7, h8, ⟨b7, h7, ?_⟩, ?_⟩
  · have hle : b7.val &&& 0x0f ≤ 0x0f := Nat.and_le_right
    show (b7.val &&& 0x0f) % 256 = b7.val &&& 0x0F
    exact Nat.mod_eq_of_lt (by omega)
  · intro other ho hagree
    obtain ⟨c1, c2, c3, c4, c5, c6, c7, c8, g1, g2, g3, g4, g5, g6, g7, g8, geq⟩ :=
      parse_report_eq brook other ho
    rw [geq]
    have e1 : c1 = b1 := Option.some.inj ((g1.symm.trans (hagree 1 (by omega) (by omega))).trans h1)
    have e2 : c2 = b2 := Option.some.inj ((g2.symm.trans (hagree 2 (by omega) (by omega))).trans h2)
    have e3 : c3 = b3 := Option.some.inj ((g3.symm.trans (hagree 3 (by omega) (by omega))).trans h3)
    have e4 : c4 = b4 := Option.some.inj ((g4.symm.trans (hagree 4 (by omega) (by omega))).trans h4)
    have e5 : c5 = b5 := Option.some.inj ((g5.symm.trans (hagree 5 (by omega) (by omega))).trans h5)
    have e6 : c6 = b6 := Option.some.inj ((g6.symm.trans (hagree 6 (by omega) (by omega))).trans h6)
    have e7 : c7 = b7 := Option.some.inj ((g7.symm.trans (hagree 7 (by omega) (by omega))).trans h7)
    have e8 : c8 = b8 := Option.some.inj ((g8.symm.trans (hagree 8 (by omega) (by omega))).trans h8)
    subst e1 e2 e3 e4 e5 e6 e7 e8
    rfl

/-- C3: on a report of at least 12 bytes the hat pair reported for
(`ABS_HAT0X`, `ABS_HAT0Y`) is fixed by the nibble `n = data[7] & 0x0F`:
0 gives (0,-1), 1 gives (1,-1), 2 gives (1,0), 3 gives (1,1), 4 gives (0,1),
5 gives (-1,1), 6 gives (-1,0), 7 gives (-1,-1), and every `n ≥ 8` gives (0,0);
each axis of the pair is reported exactly once. -/
theorem parse_report_hat (brook : brook_ps5_device) (data : List u8)
    (h : 12 ≤ data.length) :
    ∃ b7 : u8, data[7]? = some b7 ∧
      (b7.val &&& 0x0F = 0 →
        emitted_hat (brook_ps5_parse_report brook data).2 = ([0], [-1])) ∧
      (b7.val &&& 0x0F = 1 →
        emitted_hat (brook_ps5_parse_report brook data).2 = ([1], [-1])) ∧
      (b7.val &&& 0x0F = 2 →
        emitted_hat (brook_ps5_parse_report brook data).2 = ([1], [0])) ∧
      (b7.val &&& 0x0F = 3 →
        emitted_hat (brook_ps5_parse_report brook data).2 = ([1], [1])) ∧
      (b7.val &&& 0x0F = 4 →
        emitted_hat (brook_ps5_parse_report brook data).2 = ([0], [1])) ∧
      (b7.val &&& 0x0F = 5 →
        emitted_hat (brook_ps5_parse_report brook data).2 = ([-1], [1])) ∧
      (b7.val &&& 0x0F = 6 →
        emitted_hat (brook_ps5_parse_report brook data).2 = ([-1], [0])) ∧
      (b7.val &&& 0x0F = 7 →
        emitted_hat (brook_ps5_parse_report brook data).2 = ([-1], [-1])) ∧
      (8 ≤ b7.val &&& 0x0F →
        emitted_hat (brook_ps5_parse_report brook data).2 = ([0], [0])) := by
  obtain ⟨b1, b2, b3, b4, b5, b6, b7, b8, -, -, -, -, -, -, h7, -, heq⟩ :=
    parse_report_eq brook data h
  refine ⟨b7, h7, ?_⟩
  rw [heq]
  have hle : b7.val &&& 0x0f ≤ 0x0f := Nat.and_le_right
  generalize b7.val &&& 0x0f = n at hle
  refine ⟨?_, ?_, ?_, ?_, ?_, ?_, ?_, ?_, ?_⟩
  · rintro rfl; rfl
  · rintro rfl; rfl
  · rintro rfl; rfl
  · rintro rfl; rfl
  · rintro rfl; rfl
  · rintro rfl; rfl
  · rintro rfl; rfl
  · rintro rfl; rfl
  · intro h8
    interval_cases n <;> rfl

/-- C4: on a report of at least 12 bytes `brook_ps5_parse_report` makes
exactly these calls and no other: six axis reports `ABS_X`, `ABS_Y`, `ABS_RX`,
`ABS_RY`, `ABS_Z`, `ABS_RZ` carrying the bytes at offsets 1 to 6; then thirteen
key reports `BTN_A`, `BTN_B`, `BTN_X`, `BTN_Y`, `BTN_TL`, `BTN_TR`, `BTN_TL2`,
`BTN_TR2`, `BTN_SELECT`, `BTN_START`, `BTN_THUMBL`, `BTN_THUMBR`, `BTN_MODE`;
then the two hat reports `ABS_HAT0X`, `ABS_HAT0Y`; then one sync, last. -/
theorem parse_report_sequence (brook : brook_ps5_device) (data : List u8)
    (h : 12 ≤ data.length) :
    ∃ b1 b2 b3 b4 b5 b6 : u8,
      data[1]? = some b1 ∧ data[2]? = some b2 ∧ data[3]? = some b3 ∧
      data[4]? = some b4 ∧ data[5]? = some b5 ∧ data[6]? = some b6 ∧
      ∃ k1 k2 k3 k4 k5 k6 k7 k8 k9 k10 k11 k12 k13 hx hy : Int,
        (brook_ps5_parse_report brook data).2 =
          [ .input_report_abs ABS_X b1.val, .input_report_abs ABS_Y b2.val,
            .input_report_abs ABS_RX b3.val, .input_report_abs ABS_RY b4.val,
            .input_report_abs ABS_Z b5.val, .input_report_abs ABS_RZ b6.val,
            .input_report_key BTN_A k1, .input_report_key BTN_B k2,
            .input_report_key BTN_X k3, .input_report_key BTN_Y k4,
            .input_report_key BTN_TL k5, .input_report_key BTN_TR k6,
            .input_report_key BTN_TL2 k7, .input_report_key BTN_TR2 k8,
            .input_report_key BTN_SELECT k9, .input_report_key BTN_START k10,
            .input_report_key BTN_THUMBL k11, .input_report_key BTN_THUMBR k12,
            .input_report_key BTN_MODE k13,
            .input_report_abs ABS_HAT0X hx, .input_report_abs ABS_HAT0Y hy,
            .input_sync ] := by
  obtain ⟨b1, b2, b3, b4, b5, b6, b7, b8, h1, h2, h3, h4, h5, h6, -, -, heq⟩ :=
    parse_report_eq brook data h
  refine ⟨b1, b2, b3, b4, b5, b6, h1, h2, h3, h4, h5, h6, ?_⟩
  rw [heq]
  have hhat : ∀ d : Nat, ∃ hx hy : Int,
      report_dpad d = [.input_report_abs ABS_HAT0X hx, .input_report_abs ABS_HAT0Y hy] := by
    intro d
    unfold report_dpad
    repeat' split
    all_goals exact ⟨_, _, rfl⟩
  obtain ⟨hx, hy, hd⟩ := hhat ((b7.val &&& 0x0f) % 256)
  rw [hd]
  exact ⟨_, _, _, _, _, _, _, _, _, _, _, _, _, hx, hy, rfl⟩

/-- The value `n & 2^i` handed to `input_report_key` is non-zero exactly
when bit `i` of `n` is set. -/
theorem and_two_pow_ne_zero (n i : Nat) :
    decide (((n &&& 2 ^ i : Nat) : Int) ≠ 0) = n.testBit i := by
  rw [Nat.and_two_pow]
  have hpos : 0 < 2 ^ i := Nat.pos_pow_of_pos i (by decide)
  cases n.testBit i
  · simp
  · simp only [Bool.toNat_true, Nat.one_mul]
    have : ((2 ^ i : Nat) : Int) ≠ 0 := by exact_mod_cast hpos.ne.symm
    simp [this]

/-- Two numbers with the same quotient by 8 have the same bit at every
position from 3 on, hence the same value under a mask `2^(3+j)`. -/
theorem and_two_pow_of_div_eight (x y j : Nat) (h : x / 8 = y / 8) :
    x &&& 2 ^ (3 + j) = y &&& 2 ^ (3 + j) := by
  have hb : x.testBit (3 + j) = y.testBit (3 + j) := by
    rw [← Nat.testBit_shiftRight, ← Nat.testBit_shiftRight,
      Nat.shiftRight_eq_div_pow, Nat.shiftRight_eq_div_pow]
    show (x / 8).testBit j = (y / 8).testBit j
    rw [h]
  rw [Nat.and_two_pow, Nat.and_two_pow, hb]

theorem key_values_nil (code : Nat) : key_values code [] = [] := rfl

theorem key_values_abs (code c : Nat) (v : Int) (l : List input_call) :
    key_values code (.input_report_abs c v :: l) = key_values code l := by
  simp [key_values, List.filterMap_cons]

theorem key_values_sync (code : Nat) (l : List input_call) :
    key_values code (.input_sync :: l) = key_values code l := by
  simp [key_values, List.filterMap_cons]

theorem key_values_key (code c : Nat) (v : Int) (l : List input_call) :
    key_values code (.input_report_key c v :: l)
      = (if c = code then [v] else []) ++ key_values code l := by
  by_cases hc : c = code <;> simp [key_values, List.filterMap_cons, hc]

theorem key_values_append (code : Nat) (l m : List input_call) :
    key_values code (l ++ m) = key_values code l ++ key_values code m := by
  simp [key_values, List.filterMap_append]

theorem key_values_report_dpad (d code : Nat) : key_values code (report_dpad d) = [] := by
  unfold report_dpad
  repeat' split
  all_goals rfl

theorem map_ite_singleton (p : Prop) [Decidable p] (v : Int) :
    List.map (fun v : Int => decide (v ≠ 0)) (if p then [v] else [])
      = if p then [decide (v ≠ 0)] else [] := by
  split <;> rfl

/-- The key reports of a decoded report, read as pressed states. -/
theorem key_pressed_eq (b1 b2 b3 b4 b5 b6 b7 b8 : u8) (hat : List input_call)
    (hhat : ∀ code, key_values code hat = []) (code : Nat) :
    key_pressed code
      ([ .input_report_abs ABS_X b1.val, .input_report_abs ABS_Y b2.val,
          .input_report_abs ABS_RX b3.val, .input_report_abs ABS_RY b4.val,
          .input_report_abs ABS_Z b5.val, .input_report_abs ABS_RZ b6.val,
          .input_report_key BTN_A (b7.val &&& BROOK_BTN_CROSS : Nat),
          .input_report_key BTN_B (b7.val &&& BROOK_BTN_CIRCLE : Nat),
          .input_report_key BTN_X (b7.val &&& BROOK_BTN_SQUARE : Nat),
          .input_report_key BTN_Y (b7.val &&& BROOK_BTN_TRIANGLE : Nat),
          .input_report_key BTN_TL (b7.val &&& BROOK_BTN_L1 : Nat),
          .input_report_key BTN_TR (b7.val &&& BROOK_BTN_R1 : Nat),
          .input_report_key BTN_TL2 (b7.val &&& BROOK_BTN_L2 : Nat),
          .input_report_key BTN_TR2 (b7.val &&& BROOK_BTN_R2 : Nat),
          .input_report_key BTN_SELECT (b8.val &&& BROOK_BTN_SELECT : Nat),
          .input_report_key BTN_START (b8.val &&& BROOK_BTN_START : Nat),
          .input_report_key BTN_THUMBL (b8.val &&& BROOK_BTN_L3 : Nat),
          .input_report_key BTN_THUMBR (b8.val &&& BROOK_BTN_R3 : Nat),
          .input_report_key BTN_MODE (b8.val &&& BROOK_BTN_PS : Nat) ]
        ++ hat ++ [.input_sync])
      = decoded_keys b7 b8 code := by
  have m5 : decide (((b7.val &&& 32 : Nat) : Int) ≠ 0) = b7.val.testBit 5 :=
    and_two_pow_ne_zero b7.val 5
  have m6 : decide (((b7.val &&& 64 : Nat) : Int) ≠ 0) = b7.val.testBit 6 :=
    and_two_pow_ne_zero b7.val 6
  have m4 : decide (((b7.val &&& 16 : Nat) : Int) ≠ 0) = b7.val.testBit 4 :=
    and_two_pow_ne_zero b7.val 4
  have m7 : decide (((b7.val &&& 128 : Nat) : Int) ≠ 0) = b7.val.testBit 7 :=
    and_two_pow_ne_zero b7.val 7
  have m3 : decide (((b7.val &&& 8 : Nat) : Int) ≠ 0) = b7.val.testBit 3 :=
    and_two_pow_ne_zero b7.val 3
  have m2 : decide (((b7.val &&& 4 : Nat) : Int) ≠ 0) = b7.val.testBit 2 :=
    and_two_pow_ne_zero b7.val 2
  have m1 : decide (((b7.val &&& 2 : Nat) : Int) ≠ 0) = b7.val.testBit 1 :=
    and_two_pow_ne_zero b7.val 1
  have m0 : decide (((b7.val &&& 1 : Nat) : Int) ≠ 0) = b7.val.testBit 0 :=
    and_two_pow_ne_zero b7.val 0
  have n7 : decide (((b8.val &&& 128 : Nat) : Int) ≠ 0) = b8.val.testBit 7 :=
    and_two_pow_ne_zero b8.val 7
  have n6 : decide (((b8.val &&& 64 : Nat) : Int) ≠ 0) = b8.val.testBit 6 :=
    and_two_pow_ne_zero b8.val 6
  have n5 : decide (((b8.val &&& 32 : Nat) : Int) ≠ 0) = b8.val.testBit 5 :=
    and_two_pow_ne_zero b8.val 5
  have n4 : decide (((b8.val &&& 16 : Nat) : Int) ≠ 0) = b8.val.testBit 4 :=
    and_two_pow_ne_zero b8.val 4
  have n3 : decide (((b8.val &&& 8 : Nat) : Int) ≠ 0) = b8.val.testBit 3 :=
    and_two_pow_ne_zero b8.val 3
  simp only [decoded_keys, key_pressed, List.cons_append, List.nil_append, key_values_abs, key_values_key,
    key_values_sync, key_values_nil, key_values_append, hhat, List.map_append,
    map_ite_singleton, List.append_nil, List.map_nil,
    BROOK_BTN_CROSS, BROOK_BTN_CIRCLE, BROOK_BTN_SQUARE, BROOK_BTN_TRIANGLE, BROOK_BTN_L1,
    BROOK_BTN_R1, BROOK_BTN_L2, BROOK_BTN_R2, BROOK_BTN_SELECT, BROOK_BTN_START,
    BROOK_BTN_L3, BROOK_BTN_R3, BROOK_BTN_PS]
  rw [m5, m6, m4, m7, m3, m2, m1, m0, n7, n6, n5, n4, n3]
  simp only [List.append_assoc]

/-- The pressed states of a decoded report of at least 12 bytes are those
of `decoded_keys` at its bytes 7 and 8. -/
theorem key_pressed_parse_report (brook : brook_ps5_device) (data : List u8)
    (h : 12 ≤ data.length) :
    ∃ b7 b8 : u8, data[7]? = some b7 ∧ data[8]? = some b8 ∧
      ∀ code, key_pressed code (brook_ps5_parse_report brook data).2
        = decoded_keys b7 b8 code := by
  obtain ⟨b1, b2, b3, b4, b5, b6, b7, b8, -, -, -, -, -, -, h7, h8, heq⟩ :=
    parse_report_eq brook data h
  refine ⟨b7, b8, h7, h8, fun code => ?_⟩
  rw [heq]
  exact key_pressed_eq b1 b2 b3 b4 b5 b6 b7 b8 _ (key_values_report_dpad _) code

/-- C5: on a report of at least 12 bytes each of the thirteen keys is
reported exactly once, and pressed (non-zero value) if and only if its bit is
set: in byte 7, 0x80 (bit 7) is `BTN_Y`, 0x40 (bit 6) `BTN_B`, 0x20 (bit 5)
`BTN_A`, 0x10 (bit 4) `BTN_X`, 0x08 (bit 3) `BTN_TL`, 0x04 (bit 2) `BTN_TR`,
0x02 (bit 1) `BTN_TL2`, 0x01 (bit 0) `BTN_TR2`; in byte 8, 0x80 is
`BTN_SELECT`, 0x40 `BTN_START`, 0x20 `BTN_THUMBL`, 0x10 `BTN_THUMBR`, 0x08
`BTN_MODE`. The low three bits of byte 8 affect no event: a report that
differs only in them makes the same calls. -/
theorem parse_report_keys (brook : brook_ps5_device) (data : List u8)
    (h : 12 ≤ data.length) :
    ∃ b7 b8 : u8, data[7]? = some b7 ∧ data[8]? = some b8 ∧
      key_pressed BTN_Y (brook_ps5_parse_report brook data).2 = [b7.val.testBit 7] ∧
      key_pressed BTN_B (brook_ps5_parse_report brook data).2 = [b7.val.testBit 6] ∧
      key_pressed BTN_A (brook_ps5_parse_report brook data).2 = [b7.val.testBit 5] ∧
      key_pressed BTN_X (brook_ps5_parse_report brook data).2 = [b7.val.testBit 4] ∧
      key_pressed BTN_TL (brook_ps5_parse_report brook data).2 = [b7.val.testBit 3] ∧
      key_pressed BTN_TR (brook_ps5_parse_report brook data).2 = [b7.val.testBit 2] ∧
      key_pressed BTN_TL2 (brook_ps5_parse_report brook data).2 = [b7.val.testBit 1] ∧
      key_pressed BTN_TR2 (brook_ps5_parse_report brook data).2 = [b7.val.testBit 0] ∧
      key_pressed BTN_SELECT (brook_ps5_parse_report brook data).2 = [b8.val.testBit 7] ∧
      key_pressed BTN_START (brook_ps5_parse_report brook data).2 = [b8.val.testBit 6] ∧
      key_pressed BTN_THUMBL (brook_ps5_parse_report brook data).2 = [b8.val.testBit 5] ∧
      key_pressed BTN_THUMBR (brook_ps5_parse_report brook data).2 = [b8.val.testBit 4] ∧
      key_pressed BTN_MODE (brook_ps5_parse_report brook data).2 = [b8.val.testBit 3] ∧
      (∀ other : List u8, 12 ≤ other.length →
        (∀ i : Nat, i ≠ 8 → other[i]? = data[i]?) →
        (∀ c8 : u8, other[8]? = some c8 → c8.val / 8 = b8.val / 8) →
        (brook_ps5_parse_report brook other).2 = (brook_ps5_parse_report brook data).2) := by
  obtain ⟨b1, b2, b3, b4, b5, b6, b7, b8, h1, h2, h3, h4, h5, h6, h7, h8, heq⟩ :=
    parse_report_eq brook data h
  refine ⟨b7, b8, h7, h8, ?_⟩
  rw [heq]
  have hk := key_pressed_eq b1 b2 b3 b4 b5 b6 b7 b8 (report_dpad ((b7.val &&& 0x0f) % 256))
    (key_values_report_dpad _)
  refine ⟨?_, ?_, ?_, ?_, ?_, ?_, ?_, ?_, ?_, ?_, ?_, ?_, ?_, ?_⟩
  · rw [hk]; rfl
  · rw [hk]; rfl
  · rw [hk]; rfl
  · rw [hk]; rfl
  · rw [hk]; rfl
  · rw [hk]; rfl
  · rw [hk]; rfl
  · rw [hk]; rfl
  · rw [hk]; rfl
  · rw [hk]; rfl
  · rw [hk]; rfl
  · rw [hk]; rfl
  · rw [hk]; rfl
  · intro other ho hagree hhigh
    obtain ⟨c1, c2, c3, c4, c5, c6, c7, c8, g1, g2, g3, g4, g5, g6, g7, g8, geq⟩ :=
      parse_report_eq brook other ho
    rw [geq]
    have e1 : c1 = b1 := Option.some.inj ((g1.symm.trans (hagree 1 (by omega))).trans h1)
    have e2 : c2 = b2 := Option.some.inj ((g2.symm.trans (hagree 2 (by omega))).trans h2)
    have e3 : c3 = b3 := Option.some.inj ((g3.symm.trans (hagree 3 (by omega))).trans h3)
    have e4 : c4 = b4 := Option.some.inj ((g4.symm.trans (hagree 4 (by omega))).trans h4)
    have e5 : c5 = b5 := Option.some.inj ((g5.symm.trans (hagree 5 (by omega))).trans h5)
    have e6 : c6 = b6 := Option.some.inj ((g6.symm.trans (hagree 6 (by omega))).trans h6)
    have e7 : c7 = b7 := Option.some.inj ((g7.symm.trans (hagree 7 (by omega))).trans h7)
    have hdiv : c8.val / 8 = b8.val / 8 := hhigh c8 g8
    have a7 : c8.val &&& BROOK_BTN_SELECT = b8.val &&& BROOK_BTN_SELECT :=
      and_two_pow_of_div_eight c8.val b8.val 4 hdiv
    have a6 : c8.val &&& BROOK_BTN_START = b8.val &&& BROOK_BTN_START :=
      and_two_pow_of_div_eight c8.val b8.val 3 hdiv
    have a5 : c8.val &&& BROOK_BTN_L3 = b8.val &&& BROOK_BTN_L3 :=
      and_two_pow_of_div_eight c8.val b8.val 2 hdiv
    have a4 : c8.val &&& BROOK_BTN_R3 = b8.val &&& BROOK_BTN_R3 :=
      and_two_pow_of_div_eight c8.val b8.val 1 hdiv
    have a3 : c8.val &&& BROOK_BTN_PS = b8.val &&& BROOK_BTN_PS :=
      and_two_pow_of_div_eight c8.val b8.val 0 hdiv
    subst e1 e2 e3 e4 e5 e6 e7
    rw [a7, a6, a5, a4, a3]

/-- Flipping bit `k` of a byte inverts bit `k` and keeps the other seven. -/
theorem testBit_flip_bit (b : u8) (k j : Nat) (hj : j < 8) :
    (flip_bit b k).val.testBit j = (b.val.testBit j ^^ decide (k = j)) := by
  have hmod := Nat.testBit_mod_two_pow (b.val ^^^ 2 ^ k) 8 j
  have hval : (flip_bit b k).val = (b.val ^^^ 2 ^ k) % 2 ^ 8 := rfl
  rw [hval, hmod, Nat.testBit_xor, Nat.testBit_two_pow]
  simp [hj]

/-- The pressed states after flipping bit `k` of byte 7, bit by bit. -/
theorem decoded_keys_flip7 (b7 b8 : u8) (k code : Nat) :
    decoded_keys (flip_bit b7 k) b8 code =
      (if BTN_A = code then [(b7.val.testBit 5 ^^ decide (k = 5))] else [])
        ++ (if BTN_B = code then [(b7.val.testBit 6 ^^ decide (k = 6))] else [])
        ++ (if BTN_X = code then [(b7.val.testBit 4 ^^ decide (k = 4))] else [])
        ++ (if BTN_Y = code then [(b7.val.testBit 7 ^^ decide (k = 7))] else [])
        ++ (if BTN_TL = code then [(b7.val.testBit 3 ^^ decide (k = 3))] else [])
        ++ (if BTN_TR = code then [(b7.val.testBit 2 ^^ decide (k = 2))] else [])
        ++ (if BTN_TL2 = code then [(b7.val.testBit 1 ^^ decide (k = 1))] else [])
        ++ (if BTN_TR2 = code then [(b7.val.testBit 0 ^^ decide (k = 0))] else [])
        ++ (if BTN_SELECT = code then [b8.val.testBit 7] else [])
        ++ (if BTN_START = code then [b8.val.testBit 6] else [])
        ++ (if BTN_THUMBL = code then [b8.val.testBit 5] else [])
        ++ (if BTN_THUMBR = code then [b8.val.testBit 4] else [])
        ++ (if BTN_MODE = code then [b8.val.testBit 3] else []) := by
  unfold decoded_keys
  rw [testBit_flip_bit b7 _ 0 (by decide), testBit_flip_bit b7 _ 1 (by decide),
      testBit_flip_bit b7 _ 2 (by decide), testBit_flip_bit b7 _ 3 (by decide),
      testBit_flip_bit b7 _ 4 (by decide), testBit_flip_bit b7 _ 5 (by decide),
      testBit_flip_bit b7 _ 6 (by decide), testBit_flip_bit b7 _ 7 (by decide)]

/-- The pressed states after flipping bit `k` of byte 8, bit by bit. -/
theorem decoded_keys_flip8 (b7 b8 : u8) (k code : Nat) :
    decoded_keys b7 (flip_bit b8 k) code =
      (if BTN_A = code then [b7.val.testBit 5] else [])
        ++ (if BTN_B = code then [b7.val.testBit 6] else [])
        ++ (if BTN_X = code then [b7.val.testBit 4] else [])
        ++ (if BTN_Y = code then [b7.val.testBit 7] else [])
        ++ (if BTN_TL = code then [b7.val.testBit 3] else [])
        ++ (if BTN_TR = code then [b7.val.testBit 2] else [])
        ++ (if BTN_TL2 = code then [b7.val.testBit 1] else [])
        ++ (if BTN_TR2 = code then [b7.val.testBit 0] else [])
        ++ (if BTN_SELECT = code then [(b8.val.testBit 7 ^^ decide (k = 7))] else [])
        ++ (if BTN_START = code then [(b8.val.testBit 6 ^^ decide (k = 6))] else [])
        ++ (if BTN_THUMBL = code then [(b8.val.testBit 5 ^^ decide (k = 5))] else [])
        ++ (if BTN_THUMBR = code then [(b8.val.testBit 4 ^^ decide (k = 4))] else [])
        ++ (if BTN_MODE = code then [(b8.val.testBit 3 ^^ decide (k = 3))] else []) := by
  unfold decoded_keys
  rw [testBit_flip_bit b8 _ 3 (by decide), testBit_flip_bit b8 _ 4 (by decide),
      testBit_flip_bit b8 _ 5 (by decide), testBit_flip_bit b8 _ 6 (by decide),
      testBit_flip_bit b8 _ 7 (by decide)]

/-- Flipping one bit of byte 7 changes the pressed state of exactly one key. -/
theorem decoded_keys_flip_primary (b7 b8 : u8) (k : Nat) (hk : k < 8) :
    ∃! code, decoded_keys (flip_bit b7 k) b8 code ≠ decoded_keys b7 b8 code := by
  refine ⟨[BTN_TR2, BTN_TL2, BTN_TR, BTN_TL, BTN_X, BTN_A, BTN_B, BTN_Y].getD k 0, ?_, ?_⟩
  · beta_reduce
    rw [decoded_keys_flip7]
    interval_cases k <;>
      simp [decoded_keys, BTN_A, BTN_B, BTN_X, BTN_Y, BTN_TL, BTN_TR,
        BTN_TL2, BTN_TR2, BTN_SELECT, BTN_START, BTN_THUMBL, BTN_THUMBR, BTN_MODE]
  · intro y hy
    by_contra hne
    apply hy
    rw [decoded_keys_flip7]
    interval_cases k <;>
      simp [decoded_keys, BTN_A, BTN_B, BTN_X, BTN_Y, BTN_TL, BTN_TR,
        BTN_TL2, BTN_TR2, BTN_SELECT, BTN_START, BTN_THUMBL, BTN_THUMBR, BTN_MODE] at hne ⊢ <;>
      simp [Ne.symm hne]

/-- Flipping one of the five high bits of byte 8 changes the pressed state of
exactly one key. -/
theorem decoded_keys_flip_secondary (b7 b8 : u8) (k : Nat) (h3 : 3 ≤ k) (hk : k < 8) :
    ∃! code, decoded_keys b7 (flip_bit b8 k) code ≠ decoded_keys b7 b8 code := by
  refine ⟨[0, 0, 0, BTN_MODE, BTN_THUMBR, BTN_THUMBL, BTN_START, BTN_SELECT].getD k 0, ?_, ?_⟩
  · beta_reduce
    rw [decoded_keys_flip8]
    interval_cases k <;>
      simp [decoded_keys, BTN_A, BTN_B, BTN_X, BTN_Y, BTN_TL, BTN_TR,
        BTN_TL2, BTN_TR2, BTN_SELECT, BTN_START, BTN_THUMBL, BTN_THUMBR, BTN_MODE]
  · intro y hy
    by_contra hne
    apply hy
    rw [decoded_keys_flip8]
    interval_cases k <;>
      simp [decoded_keys, BTN_A, BTN_B, BTN_X, BTN_Y, BTN_TL, BTN_TR,
        BTN_TL2, BTN_TR2, BTN_SELECT, BTN_START, BTN_THUMBL, BTN_THUMBR, BTN_MODE] at hne ⊢ <;>
      simp [Ne.symm hne]

/-- Flipping one of the three low bits of byte 8 changes no pressed state. -/
theorem decoded_keys_flip_unused (b7 b8 : u8) (k : Nat) (hk : k < 3) (code : Nat) :
    decoded_keys b7 (flip_bit b8 k) code = decoded_keys b7 b8 code := by
  rw [decoded_keys_flip8]
  interval_cases k <;> simp [decoded_keys]

/-- The pressed states of a report and of the same report with byte 7 or
byte 8 replaced. -/
theorem key_pressed_set (brook : brook_ps5_device) (data : List u8)
    (h : 12 ≤ data.length) :
    ∃ b7 b8 : u8, data[7]? = some b7 ∧ data[8]? = some b8 ∧
      (∀ code, key_pressed code (brook_ps5_parse_report brook data).2
        = decoded_keys b7 b8 code) ∧
      (∀ (c : u8) code, key_pressed code (brook_ps5_parse_report brook (data.set 7 c)).2
        = decoded_keys c b8 code) ∧
      (∀ (c : u8) code, key_pressed code (brook_ps5_parse_report brook (data.set 8 c)).2
        = decoded_keys b7 c code) := by
  obtain ⟨b7, b8, h7, h8, hk⟩ := key_pressed_parse_report brook data h
  refine ⟨b7, b8, h7, h8, hk, ?_, ?_⟩
  · intro c code
    obtain ⟨c7, c8, g7, g8, gk⟩ :=
      key_pressed_parse_report brook (data.set 7 c) (by rw [List.length_set]; exact h)
    rw [List.getElem?_set_self (by omega)] at g7
    rw [List.getElem?_set_ne (by decide), h8] at g8
    rw [gk code, ← Option.some.inj g7, ← Option.some.inj g8]
  · intro c code
    obtain ⟨c7, c8, g7, g8, gk⟩ :=
      key_pressed_parse_report brook (data.set 8 c) (by rw [List.length_set]; exact h)
    rw [List.getElem?_set_ne (by decide), h7] at g7
    rw [List.getElem?_set_self (by omega)] at g8
    rw [gk code, ← Option.some.inj g7, ← Option.some.inj g8]

/-- C6, as amended: on a report of at least 12 bytes, flipping exactly one
of the thirteen assigned bits (any bit of byte 7, or one of bits 3 to 7 of
byte 8) changes the pressed state reported for exactly one key code and for
no other; flipping one of the three low bits of byte 8 changes the pressed
state of no key. -/
theorem key_flip_independence (brook : brook_ps5_device) (data : List u8)
    (h : 12 ≤ data.length) :
    ∃ b7 b8 : u8, data[7]? = some b7 ∧ data[8]? = some b8 ∧
      (∀ k : Nat, k < 8 →
        ∃! code, key_pressed code
            (brook_ps5_parse_report brook (data.set 7 (flip_bit b7 k))).2
          ≠ key_pressed code (brook_ps5_parse_report brook data).2) ∧
      (∀ k : Nat, 3 ≤ k → k < 8 →
        ∃! code, key_pressed code
            (brook_ps5_parse_report brook (data.set 8 (flip_bit b8 k))).2
          ≠ key_pressed code (brook_ps5_parse_report brook data).2) ∧
      (∀ k : Nat, k < 3 → ∀ code,
        key_pressed code (brook_ps5_parse_report brook (data.set 8 (flip_bit b8 k))).2
          = key_pressed code (brook_ps5_parse_report brook data).2) := by
  obtain ⟨b7, b8, h7, h8, hk, hk7, hk8⟩ := key_pressed_set brook data h
  refine ⟨b7, b8, h7, h8, ?_, ?_, ?_⟩
  · intro k hlt
    simp only [hk, hk7]
    exact decoded_keys_flip_primary b7 b8 k hlt
  · intro k h3 hlt
    simp only [hk, hk8]
    exact decoded_keys_flip_secondary b7 b8 k h3 hlt
  · intro k hlt code
    rw [hk, hk8]
    exact decoded_keys_flip_unused b7 b8 k hlt code

/-- Counterexample to C6 as stated: in the 12-byte scenario A report, flipping
bit 0 of byte 8 (0x40 becomes 0x41) gives a different report for which
`brook_ps5_parse_report` makes exactly the same calls, so no key event
changes. -/
theorem key_flip_unused_bit_counterexample :
    scenario_a_report[8]? = some 0x40 ∧
    flip_bit 0x40 0 = 0x41 ∧
    scenario_a_report.set 8 (flip_bit 0x40 0) ≠ scenario_a_report ∧
    (brook_ps5_parse_report (sample_session true)
        (scenario_a_report.set 8 (flip_bit 0x40 0))).2
      = (brook_ps5_parse_report (sample_session true) scenario_a_report).2 ∧
    ¬ ∃ code, key_pressed code (brook_ps5_parse_report (sample_session true)
          (scenario_a_report.set 8 (flip_bit 0x40 0))).2
        ≠ key_pressed code (brook_ps5_parse_report (sample_session true) scenario_a_report).2 := by
  have hcalls : (brook_ps5_parse_report (sample_session true)
        (scenario_a_report.set 8 (flip_bit 0x40 0))).2
      = (brook_ps5_parse_report (sample_session true) scenario_a_report).2 := by decide
  refine ⟨by decide, by decide, by decide, hcalls, ?_⟩
  rintro ⟨code, hne⟩
  exact hne (congrArg (key_pressed code) hcalls)

/-- Counterexample to C7 as stated: the report made of the nine bytes of
scenario A is shorter than 12 bytes, so `brook_ps5_parse_report` leaves the
state as it was (right trigger still 0) and makes no call; and once the
report is padded to 12 bytes, byte 8 = 0x40 reports `BTN_START` pressed
next to `BTN_A`, so two keys are pressed, not one. -/
theorem scenario_a_counterexample :
    scenario_a_bytes.length = 9 ∧
    brook_ps5_parse_report (sample_session true) scenario_a_bytes
      = (sample_session true, []) ∧
    (brook_ps5_parse_report (sample_session true) scenario_a_bytes).1.right_trigger = 0 ∧
    key_pressed BTN_A (brook_ps5_parse_report (sample_session true) scenario_a_report).2
      = [true] ∧
    key_pressed BTN_START (brook_ps5_parse_report (sample_session true) scenario_a_report).2
      = [true] := by
  decide

/-- C7, as amended: for every prior state, a report of at least 12 bytes
that starts with the nine bytes of scenario A leaves left trigger 0, right
trigger 255, the sticks at 128, button bytes 0x20 and 0x40, dpad 0, and makes
these 22 calls in order: six axis reports, thirteen key reports of which
exactly `BTN_A` (Cross) and `BTN_START` are pressed, the hat pair (0,-1), one
sync. -/
theorem scenario_a_padded (brook : brook_ps5_device) (rest : List u8)
    (h : 3 ≤ rest.length) :
    brook_ps5_parse_report brook (scenario_a_bytes ++ rest) =
      ({ brook with
          left_stick_x := 128, left_stick_y := 128, right_stick_x := 128,
          right_stick_y := 128, left_trigger := 0, right_trigger := 255,
          buttons0 := 0x20, buttons1 := 0x40, dpad := 0 },
        [ .input_report_abs ABS_X 128, .input_report_abs ABS_Y 128,
          .input_report_abs ABS_RX 128, .input_report_abs ABS_RY 128,
          .input_report_abs ABS_Z 0, .input_report_abs ABS_RZ 255,
          .input_report_key BTN_A 0x20, .input_report_key BTN_B 0,
          .input_report_key BTN_X 0, .input_report_key BTN_Y 0,
          .input_report_key BTN_TL 0, .input_report_key BTN_TR 0,
          .input_report_key BTN_TL2 0, .input_report_key BTN_TR2 0,
          .input_report_key BTN_SELECT 0, .input_report_key BTN_START 0x40,
          .input_report_key BTN_THUMBL 0, .input_report_key BTN_THUMBR 0,
          .input_report_key BTN_MODE 0,
          .input_report_abs ABS_HAT0X 0, .input_report_abs ABS_HAT0Y (-1),
          .input_sync ]) := by
  have hlen : 12 ≤ (scenario_a_bytes ++ rest).length := by
    rw [List.length_append]
    have : scenario_a_bytes.length = 9 := rfl
    omega
  obtain ⟨b1, b2, b3, b4, b5, b6, b7, b8, h1, h2, h3, h4, h5, h6, h7, h8, heq⟩ :=
    parse_report_eq brook (scenario_a_bytes ++ rest) hlen
  have e1 : b1 = 128 := Option.some.inj (h1.symm.trans rfl)
  have e2 : b2 = 128 := Option.some.inj (h2.symm.trans rfl)
  have e3 : b3 = 128 := Option.some.inj (h3.symm.trans rfl)
  have e4 : b4 = 128 := Option.some.inj (h4.symm.trans rfl)
  have e5 : b5 = 0 := Option.some.inj (h5.symm.trans rfl)
  have e6 : b6 = 255 := Option.some.inj (h6.symm.trans rfl)
  have e7 : b7 = 0x20 := Option.some.inj (h7.symm.trans rfl)
  have g8 : (scenario_a_bytes ++ rest)[8]? = some 0x40 := by
    simp [scenario_a_bytes]
  have e8 : b8 = 0x40 := Option.some.inj (h8.symm.trans g8)
  subst e1 e2 e3 e4 e5 e6 e7 e8
  rw [heq]
  rfl

/-- Witness of C7 as amended: the nine bytes followed by three zero bytes. -/
theorem scenario_a_padded_witness :
    3 ≤ [(0 : u8), 0, 0].length ∧
    brook_ps5_parse_report (sample_session true) (scenario_a_bytes ++ [0, 0, 0]) =
      ({ sample_session true with
          left_stick_x := 128, left_stick_y := 128, right_stick_x := 128,
          right_stick_y := 128, left_trigger := 0, right_trigger := 255,
          buttons0 := 0x20, buttons1 := 0x40, dpad := 0 },
        [ .input_report_abs ABS_X 128, .input_report_abs ABS_Y 128,
          .input_report_abs ABS_RX 128, .input_report_abs ABS_RY 128,
          .input_report_abs ABS_Z 0, .input_report_abs ABS_RZ 255,
          .input_report_key BTN_A 0x20, .input_report_key BTN_B 0,
          .input_report_key BTN_X 0, .input_report_key BTN_Y 0,
          .input_report_key BTN_TL 0, .input_report_key BTN_TR 0,
          .input_report_key BTN_TL2 0, .input_report_key BTN_TR2 0,
          .input_report_key BTN_SELECT 0, .input_report_key BTN_START 0x40,
          .input_report_key BTN_THUMBL 0, .input_report_key BTN_THUMBR 0,
          .input_report_key BTN_MODE 0,
          .input_report_abs ABS_HAT0X 0, .input_report_abs ABS_HAT0Y (-1),
          .input_sync ]) :=
  ⟨by decide, scenario_a_padded (sample_session true) [0, 0, 0] (by decide)⟩

/-! ## Properties of dispatch and detach -/

/-- On a report of at least 12 bytes the decoder makes 22 calls. -/
theorem parse_report_length (brook : brook_ps5_device) (data : List u8)
    (h : 12 ≤ data.length) : (brook_ps5_parse_report brook data).2.length = 22 := by
  obtain ⟨b1, b2, b3, b4, b5, b6, b7, b8, -, -, -, -, -, -, -, -, heq⟩ :=
    parse_report_eq brook data h
  rw [heq]
  have hd : ∀ d : Nat, (report_dpad d).length = 2 := by
    intro d
    unfold report_dpad
    repeat' split
    all_goals rfl
  simp [hd]

/-- The decoder neither reads nor writes the `opened` flag. -/
theorem parse_report_opened (brook : brook_ps5_device) (data : List u8) (flag : Bool) :
    brook_ps5_parse_report { brook with opened := flag } data =
      ({ (brook_ps5_parse_report brook data).1 with opened := flag },
        (brook_ps5_parse_report brook data).2) := by
  unfold brook_ps5_parse_report
  split <;> rfl

/-- The early return of `brook_ps5_parse_report` on a report shorter than
12 bytes. -/
theorem parse_report_of_lt (brook : brook_ps5_device) (data : List u8)
    (h : data.length < 12) :
    brook_ps5_parse_report brook data = (brook, []) := by
  unfold brook_ps5_parse_report
  rw [dif_pos h]

/-- With a session and an input endpoint present, dispatch is the decoder. -/
theorem raw_event_some (brook : brook_ps5_device) (dev : input_dev) (data : List u8)
    (hin : brook.input = some dev) :
    brook_ps5_raw_event ⟨some brook⟩ data =
      (⟨some (brook_ps5_parse_report brook data).1⟩,
        (brook_ps5_parse_report brook data).2, 0) := by
  simp [brook_ps5_raw_event, hin]

/-- Counterexample to C8 as stated: a session with an input endpoint that
was closed by `brook_ps5_input_close` has `opened = false`, and
`brook_ps5_raw_event` on the 12-byte scenario A report still makes 22 calls
and overwrites the control state. -/
theorem raw_event_closed_counterexample :
    (brook_ps5_input_close (sample_session true)).1.opened = false ∧
    (brook_ps5_raw_event ⟨some (brook_ps5_input_close (sample_session true)).1⟩
        scenario_a_report).2.1.length = 22 ∧
    (brook_ps5_raw_event ⟨some (brook_ps5_input_close (sample_session true)).1⟩
        scenario_a_report).1.drvdata.map control_state
      = some [128, 128, 128, 128, 0, 255, 0x20, 0x40, 0] ∧
    control_state (brook_ps5_input_close (sample_session true)).1
      = [0, 0, 0, 0, 0, 0, 0, 0, 0] := by
  decide

/-- C8, as amended: `brook_ps5_raw_event` makes no call exactly when the
device has no session, or the session has no input endpoint, or the report is
shorter than 12 bytes, and then it leaves the device as it was; the `opened`
flag does not gate dispatch: with any value of the flag the same calls are
made and the same state is stored, the flag itself staying as it was. -/
theorem raw_event_gate (hdev : hid_device) (data : List u8) :
    ((brook_ps5_raw_event hdev data).2.1 = [] ↔
      (hdev.drvdata = none ∨ (∃ b, hdev.drvdata = some b ∧ b.input = none)
        ∨ data.length < 12)) ∧
    ((brook_ps5_raw_event hdev data).2.1 = [] → (brook_ps5_raw_event hdev data).1 = hdev) ∧
    (∀ (brook : brook_ps5_device) (flag : Bool),
      (brook_ps5_raw_event ⟨some { brook with opened := flag }⟩ data).2.1
        = (brook_ps5_raw_event ⟨some brook⟩ data).2.1 ∧
      (brook_ps5_raw_event ⟨some { brook with opened := flag }⟩ data).1.drvdata
        = (brook_ps5_raw_event ⟨some brook⟩ data).1.drvdata.map
            (fun b => { b with opened := flag })) := by
  have key : (brook_ps5_raw_event hdev data).2.1 = [] ↔
      (hdev.drvdata = none ∨ (∃ b, hdev.drvdata = some b ∧ b.input = none)
        ∨ data.length < 12) := by
    obtain ⟨drv⟩ := hdev
    cases drv with
    | none => simp [brook_ps5_raw_event]
    | some brook =>
      cases hin : brook.input with
      | none => simp [brook_ps5_raw_event, hin]
      | some dev =>
        by_cases hlen : data.length < 12
        · simp [brook_ps5_raw_event, hin, parse_report_of_lt brook data hlen, hlen]
        · have h22 := parse_report_length brook data (by omega)
          have hne : (brook_ps5_parse_report brook data).2 ≠ [] := by
            intro hnil
            rw [hnil] at h22
            exact absurd h22 (by decide)
          simp [brook_ps5_raw_event, hin, hne, hlen]
  refine ⟨key, ?_, ?_⟩
  · intro hnil
    rcases key.mp hnil with hnone | ⟨b, hb, hin⟩ | hlen
    · simp [brook_ps5_raw_event, hnone]
    · simp [brook_ps5_raw_event, hb, hin]
    · obtain ⟨drv⟩ := hdev
      cases drv with
      | none => rfl
      | some brook =>
        cases hin : brook.input with
        | none => simp [brook_ps5_raw_event, hin]
        | some dev => simp [brook_ps5_raw_event, hin, parse_report_of_lt brook data hlen]
  · intro brook flag
    rcases Option.eq_none_or_eq_some brook.input with hin | ⟨dev, hin⟩
    · simp [brook_ps5_raw_event, hin]
    · have hin2 : ({ brook with opened := flag } : brook_ps5_device).input = some dev := hin
      rw [raw_event_some _ dev data hin2, raw_event_some brook dev data hin,
        parse_report_opened]
      exact ⟨rfl, rfl⟩

/-- C9: decoding does not depend on the prior state. For a report of at
least 12 bytes and any two prior sessions, `brook_ps5_parse_report` stores
the same control state (four stick bytes, two triggers, two button bytes,
dpad) and makes the same calls; and decoding the same bytes a second time, on
the state the first decoding left, gives that state and those calls again. -/
theorem parse_report_prior_state (s t : brook_ps5_device) (data : List u8)
    (h : 12 ≤ data.length) :
    control_state (brook_ps5_parse_report s data).1
      = control_state (brook_ps5_parse_report t data).1 ∧
    (brook_ps5_parse_report s data).2 = (brook_ps5_parse_report t data).2 ∧
    brook_ps5_parse_report (brook_ps5_parse_report s data).1 data
      = brook_ps5_parse_report s data := by
  obtain ⟨b1, b2, b3, b4, b5, b6, b7, b8, h1, h2, h3, h4, h5, h6, h7, h8, hs⟩ :=
    parse_report_eq s data h
  obtain ⟨c1, c2, c3, c4, c5, c6, c7, c8, g1, g2, g3, g4, g5, g6, g7, g8, ht⟩ :=
    parse_report_eq t data h
  obtain ⟨d1, d2, d3, d4, d5, d6, d7, d8, f1, f2, f3, f4, f5, f6, f7, f8, hu⟩ :=
    parse_report_eq (brook_ps5_parse_report s data).1 data h
  have e1 : c1 = b1 := Option.some.inj (g1.symm.trans h1)
  have e2 : c2 = b2 := Option.some.inj (g2.symm.trans h2)
  have e3 : c3 = b3 := Option.some.inj (g3.symm.trans h3)
  have e4 : c4 = b4 := Option.some.inj (g4.symm.trans h4)
  have e5 : c5 = b5 := Option.some.inj (g5.symm.trans h5)
  have e6 : c6 = b6 := Option.some.inj (g6.symm.trans h6)
  have e7 : c7 = b7 := Option.some.inj (g7.symm.trans h7)
  have e8 : c8 = b8 := Option.some.inj (g8.symm.trans h8)
  have i1 : d1 = b1 := Option.some.inj (f1.symm.trans h1)
  have i2 : d2 = b2 := Option.some.inj (f2.symm.trans h2)
  have i3 : d3 = b3 := Option.some.inj (f3.symm.trans h3)
  have i4 : d4 = b4 := Option.some.inj (f4.symm.trans h4)
  have i5 : d5 = b5 := Option.some.inj (f5.symm.trans h5)
  have i6 : d6 = b6 := Option.some.inj (f6.symm.trans h6)
  have i7 : d7 = b7 := Option.some.inj (f7.symm.trans h7)
  have i8 : d8 = b8 := Option.some.inj (f8.symm.trans h8)
  subst e1 e2 e3 e4 e5 e6 e7 e8 i1 i2 i3 i4 i5 i6 i7 i8
  refine ⟨?_, ?_, ?_⟩
  · rw [hs, ht]; rfl
  · rw [hs, ht]
  · rw [hu, hs]

/-- C10: `brook_ps5_remove` calls `hid_hw_close` if and only if a session is
present and its `opened` flag is true, calls it before `hid_hw_stop`, and
calls `hid_hw_stop` exactly once in every case, as its last call: the calls
are `hid_hw_close, hid_hw_stop` for an open session and `hid_hw_stop` alone
for a closed or absent one. The device is left as it was. -/
theorem remove_calls (hdev : hid_device) :
    ((∃ b, hdev.drvdata = some b ∧ b.opened = true) →
      (brook_ps5_remove hdev).2.map hid_call.fn = [.hid_hw_close, .hid_hw_stop]) ∧
    ((¬ ∃ b, hdev.drvdata = some b ∧ b.opened = true) →
      (brook_ps5_remove hdev).2.map hid_call.fn = [.hid_hw_stop]) ∧
    (hid_fn.hid_hw_close ∈ (brook_ps5_remove hdev).2.map hid_call.fn ↔
      ∃ b, hdev.drvdata = some b ∧ b.opened = true) ∧
    ((brook_ps5_remove hdev).2.map hid_call.fn).count .hid_hw_stop = 1 ∧
    ((brook_ps5_remove hdev).2.map hid_call.fn).getLast? = some .hid_hw_stop ∧
    (brook_ps5_remove hdev).1 = hdev := by
  obtain ⟨drv⟩ := hdev
  cases drv with
  | none => simp [brook_ps5_remove]
  | some b =>
    cases ho : b.opened <;> simp [brook_ps5_remove, ho]

/-! ## Instances on concrete reports -/

/-- Witness of C2 on the 12-byte sample report. -/
theorem parse_report_fields_witness :
    12 ≤ sample_report.length ∧
    (sample_report[1]? = some (brook_ps5_parse_report (sample_session true) sample_report).1.left_stick_x ∧
    sample_report[2]? = some (brook_ps5_parse_report (sample_session true) sample_report).1.left_stick_y ∧
    sample_report[3]? = some (brook_ps5_parse_report (sample_session true) sample_report).1.right_stick_x ∧
    sample_report[4]? = some (brook_ps5_parse_report (sample_session true) sample_report).1.right_stick_y ∧
    sample_report[5]? = some (brook_ps5_parse_report (sample_session true) sample_report).1.left_trigger ∧
    sample_report[6]? = some (brook_ps5_parse_report (sample_session true) sample_report).1.right_trigger ∧
    sample_report[7]? = some (brook_ps5_parse_report (sample_session true) sample_report).1.buttons0 ∧
    sample_report[8]? = some (brook_ps5_parse_report (sample_session true) sample_report).1.buttons1 ∧
    (∃ b7 : u8, sample_report[7]? = some b7 ∧
      (brook_ps5_parse_report (sample_session true) sample_report).1.dpad.val = b7.val &&& 0x0F) ∧
    (∀ other : List u8, 12 ≤ other.length →
      (∀ i : Nat, 1 ≤ i → i ≤ 8 → other[i]? = sample_report[i]?) →
      (brook_ps5_parse_report (sample_session true) other).1 = (brook_ps5_parse_report (sample_session true) sample_report).1)) :=
  ⟨by decide, parse_report_fields (sample_session true) sample_report (by decide)⟩

/-- Witness of C3 on the 12-byte sample report. -/
theorem parse_report_hat_witness :
    12 ≤ sample_report.length ∧
    (∃ b7 : u8, sample_report[7]? = some b7 ∧
      (b7.val &&& 0x0F = 0 →
        emitted_hat (brook_ps5_parse_report (sample_session true) sample_report).2 = ([0], [-1])) ∧
      (b7.val &&& 0x0F = 1 →
        emitted_hat (brook_ps5_parse_report (sample_session true) sample_report).2 = ([1], [-1])) ∧
      (b7.val &&& 0x0F = 2 →
        emitted_hat (brook_ps5_parse_report (sample_session true) sample_report).2 = ([1], [0])) ∧
      (b7.val &&& 0x0F = 3 →
        emitted_hat (brook_ps5_parse_report (sample_session true) sample_report).2 = ([1], [1])) ∧
      (b7.val &&& 0x0F = 4 →
        emitted_hat (brook_ps5_parse_report (sample_session true) sample_report).2 = ([0], [1])) ∧
      (b7.val &&& 0x0F = 5 →
        emitted_hat (brook_ps5_parse_report (sample_session true) sample_report).2 = ([-1], [1])) ∧
      (b7.val &&& 0x0F = 6 →
        emitted_hat (brook_ps5_parse_report (sample_session true) sample_report).2 = ([-1], [0])) ∧
      (b7.val &&& 0x0F = 7 →
        emitted_hat (brook_ps5_parse_report (sample_session true) sample_report).2 = ([-1], [-1])) ∧
      (8 ≤ b7.val &&& 0x0F →
        emitted_hat (brook_ps5_parse_report (sample_session true) sample_report).2 = ([0], [0]))) :=
  ⟨by decide, parse_report_hat (sample_session true) sample_report (by decide)⟩

/-- Witness of C4 on the 12-byte sample report. -/
theorem parse_report_sequence_witness :
    12 ≤ sample_report.length ∧
    (∃ b1 b2 b3 b4 b5 b6 : u8,
      sample_report[1]? = some b1 ∧ sample_report[2]? = some b2 ∧ sample_report[3]? = some b3 ∧
      sample_report[4]? = some b4 ∧ sample_report[5]? = some b5 ∧ sample_report[6]? = some b6 ∧
      ∃ k1 k2 k3 k4 k5 k6 k7 k8 k9 k10 k11 k12 k13 hx hy : Int,
        (brook_ps5_parse_report (sample_session true) sample_report).2 =
          [ .input_report_abs ABS_X b1.val, .input_report_abs ABS_Y b2.val,
            .input_report_abs ABS_RX b3.val, .input_report_abs ABS_RY b4.val,
            .input_report_abs ABS_Z b5.val, .input_report_abs ABS_RZ b6.val,
            .input_report_key BTN_A k1, .input_report_key BTN_B k2,
            .input_report_key BTN_X k3, .input_report_key BTN_Y k4,
            .input_report_key BTN_TL k5, .input_report_key BTN_TR k6,
            .input_report_key BTN_TL2 k7, .input_report_key BTN_TR2 k8,
            .input_report_key BTN_SELECT k9, .input_report_key BTN_START k10,
            .input_report_key BTN_THUMBL k11, .input_report_key BTN_THUMBR k12,
            .input_report_key BTN_MODE k13,
            .input_report_abs ABS_HAT0X hx, .input_report_abs ABS_HAT0Y hy,
            .input_sync ]) :=
  ⟨by decide, parse_report_sequence (sample_session true) sample_report (by decide)⟩

/-- Witness of C5 on the 12-byte sample report. -/
theorem parse_report_keys_witness :
    12 ≤ sample_report.length ∧
    (∃ b7 b8 : u8, sample_report[7]? = some b7 ∧ sample_report[8]? = some b8 ∧
      key_pressed BTN_Y (brook_ps5_parse_report (sample_session true) sample_report).2 = [b7.val.testBit 7] ∧
      key_pressed BTN_B (brook_ps5_parse_report (sample_session true) sample_report).2 = [b7.val.testBit 6] ∧
      key_pressed BTN_A (brook_ps5_parse_report (sample_session true) sample_report).2 = [b7.val.testBit 5] ∧
      key_pressed BTN_X (brook_ps5_parse_report (sample_session true) sample_report).2 = [b7.val.testBit 4] ∧
      key_pressed BTN_TL (brook_ps5_parse_report (sample_session true) sample_report).2 = [b7.val.testBit 3] ∧
      key_pressed BTN_TR (brook_ps5_parse_report (sample_session true) sample_report).2 = [b7.val.testBit 2] ∧
      key_pressed BTN_TL2 (brook_ps5_parse_report (sample_session true) sample_report).2 = [b7.val.testBit 1] ∧
      key_pressed BTN_TR2 (brook_ps5_parse_report (sample_session true) sample_report).2 = [b7.val.testBit 0] ∧
      key_pressed BTN_SELECT (brook_ps5_parse_report (sample_session true) sample_report).2 = [b8.val.testBit 7] ∧
      key_pressed BTN_START (brook_ps5_parse_report (sample_session true) sample_report).2 = [b8.val.testBit 6] ∧
      key_pressed BTN_THUMBL (brook_ps5_parse_report (sample_session true) sample_report).2 = [b8.val.testBit 5] ∧
      key_pressed BTN_THUMBR (brook_ps5_parse_report (sample_session true) sample_report).2 = [b8.val.testBit 4] ∧
      key_pressed BTN_MODE (brook_ps5_parse_report (sample_session true) sample_report).2 = [b8.val.testBit 3] ∧
      (∀ other : List u8, 12 ≤ other.length →
        (∀ i : Nat, i ≠ 8 → other[i]? = sample_report[i]?) →
        (∀ c8 : u8, other[8]? = some c8 → c8.val / 8 = b8.val / 8) →
        (brook_ps5_parse_report (sample_session true) other).2 = (brook_ps5_parse_report (sample_session true) sample_report).2)) :=
  ⟨by decide, parse_report_keys (sample_session true) sample_report (by decide)⟩

/-- Witness of C6 as amended on the 12-byte sample report. -/
theorem key_flip_independence_witness :
    12 ≤ sample_report.length ∧
    (∃ b7 b8 : u8, sample_report[7]? = some b7 ∧ sample_report[8]? = some b8 ∧
      (∀ k : Nat, k < 8 →
        ∃! code, key_pressed code
            (brook_ps5_parse_report (sample_session true) (sample_report.set 7 (flip_bit b7 k))).2
          ≠ key_pressed code (brook_ps5_parse_report (sample_session true) sample_report).2) ∧
      (∀ k : Nat, 3 ≤ k → k < 8 →
        ∃! code, key_pressed code
            (brook_ps5_parse_report (sample_session true) (sample_report.set 8 (flip_bit b8 k))).2
          ≠ key_pressed code (brook_ps5_parse_report (sample_session true) sample_report).2) ∧
      (∀ k : Nat, k < 3 → ∀ code,
        key_pressed code (brook_ps5_parse_report (sample_session true) (sample_report.set 8 (flip_bit b8 k))).2
          = key_pressed code (brook_ps5_parse_report (sample_session true) sample_report).2)) :=
  ⟨by decide, key_flip_independence (sample_session true) sample_report (by decide)⟩

/-- Witness of C9 on the 12-byte sample report, from a zero-filled session and
from the session scenario A leaves behind. -/
theorem parse_report_prior_state_witness :
    12 ≤ sample_report.length ∧
    (control_state (brook_ps5_parse_report (sample_session true) sample_report).1
      = control_state (brook_ps5_parse_report (brook_ps5_parse_report (sample_session false) scenario_a_report).1 sample_report).1 ∧
    (brook_ps5_parse_report (sample_session true) sample_report).2 = (brook_ps5_parse_report (brook_ps5_parse_report (sample_session false) scenario_a_report).1 sample_report).2 ∧
    brook_ps5_parse_report (brook_ps5_parse_report (sample_session true) sample_report).1 sample_report
      = brook_ps5_parse_report (sample_session true) sample_report) :=
  ⟨by decide, parse_report_prior_state (sample_session true) (brook_ps5_parse_report (sample_session false) scenario_a_report).1 sample_report (by decide)⟩

/-! ## Properties of attach, open and close -/

/-- C11: the attach error path. `brook_ps5_probe` returns 0 exactly when
the session allocation, `hid_parse`, `hid_hw_start` and
`brook_ps5_setup_input` (input allocation and registration) all succeed;
otherwise it returns the error code of the first failing step and calls no
later step. When `hid_parse` or `hid_hw_start` fails, `hid_hw_stop` is not
called; when `brook_ps5_setup_input` fails, by allocation (`-ENOMEM`) or by
registration, `hid_hw_stop` is called exactly once, as the last call before
the failure is returned. -/
theorem probe_error_path (hdev : hid_device) (env : probe_env) :
    (env.kzalloc_ok = false →
      brook_ps5_probe hdev env = (hdev, [], -ENOMEM)) ∧
    (env.kzalloc_ok = true → env.hid_parse_ret ≠ 0 →
      (brook_ps5_probe hdev env).2.2 = env.hid_parse_ret ∧
      (brook_ps5_probe hdev env).2.1.map hid_call.fn = [.hid_parse]) ∧
    (env.kzalloc_ok = true → env.hid_parse_ret = 0 → env.hid_hw_start_ret ≠ 0 →
      (brook_ps5_probe hdev env).2.2 = env.hid_hw_start_ret ∧
      (brook_ps5_probe hdev env).2.1.map hid_call.fn = [.hid_parse, .hid_hw_start]) ∧
    (env.kzalloc_ok = true → env.hid_parse_ret = 0 → env.hid_hw_start_ret = 0 →
        env.input_alloc_ok = false →
      (brook_ps5_probe hdev env).2.2 = -ENOMEM ∧
      (brook_ps5_probe hdev env).2.1.map hid_call.fn =
        [.hid_parse, .hid_hw_start, .devm_input_allocate_device, .hid_hw_stop]) ∧
    (env.kzalloc_ok = true → env.hid_parse_ret = 0 → env.hid_hw_start_ret = 0 →
        env.input_alloc_ok = true → env.input_register_ret ≠ 0 →
      (brook_ps5_probe hdev env).2.2 = env.input_register_ret ∧
      (brook_ps5_probe hdev env).2.1.map hid_call.fn =
        [.hid_parse, .hid_hw_start, .devm_input_allocate_device, .input_register_device,
          .hid_hw_stop]) ∧
    (env.kzalloc_ok = true → env.hid_parse_ret = 0 → env.hid_hw_start_ret = 0 →
        env.input_alloc_ok = true → env.input_register_ret = 0 →
      (brook_ps5_probe hdev env).2.2 = 0 ∧
      (brook_ps5_probe hdev env).2.1.map hid_call.fn =
        [.hid_parse, .hid_hw_start, .devm_input_allocate_device, .input_register_device]) ∧
    ((brook_ps5_probe hdev env).2.2 = 0 ↔
      (env.kzalloc_ok = true ∧ env.hid_parse_ret = 0 ∧ env.hid_hw_start_ret = 0 ∧
        env.input_alloc_ok = true ∧ env.input_register_ret = 0)) := by
  obtain ⟨kz, pr, st, al, rg⟩ := env
  have hE : -ENOMEM ≠ 0 := by decide
  refine ⟨?_, ?_, ?_, ?_, ?_, ?_, ?_⟩
  · intro h
    simp only at h
    subst h
    rfl
  · intro h hp
    simp only at h hp
    subst h
    simp [brook_ps5_probe, hp]
  · intro h hp hs
    simp only at h hp hs
    subst h hp
    simp [brook_ps5_probe, hs]
  · intro h hp hs ha
    simp only at h hp hs ha
    subst h hp hs ha
    simp [brook_ps5_probe, brook_ps5_setup_input, hE]
  · intro h hp hs ha hr
    simp only at h hp hs ha hr
    subst h hp hs ha
    simp [brook_ps5_probe, brook_ps5_setup_input, hr]
  · intro h hp hs ha hr
    simp only at h hp hs ha hr
    subst h hp hs ha hr
    simp [brook_ps5_probe, brook_ps5_setup_input]
  · cases kz
    · simp [brook_ps5_probe, hE]
    · by_cases hp : pr = 0
      · by_cases hs : st = 0
        · cases al
          · simp [brook_ps5_probe, brook_ps5_setup_input, hp, hs, hE]
          · by_cases hr : rg = 0
            · simp [brook_ps5_probe, brook_ps5_setup_input, hp, hs, hr]
            · simp [brook_ps5_probe, brook_ps5_setup_input, hp, hs, hr]
        · simp [brook_ps5_probe, hp, hs]
      · simp [brook_ps5_probe, hp]

/-- Counterexample to C12 as stated: on a session whose `opened` flag is
already false, `brook_ps5_input_close` still calls `hid_hw_close`. -/
theorem input_close_closed_counterexample :
    (sample_session false).opened = false ∧
    (brook_ps5_input_close (sample_session false)).2.map hid_call.fn = [.hid_hw_close] ∧
    (brook_ps5_input_close (sample_session false)).2 ≠ [] := by
  decide

/-- C12, as amended: on a session whose `opened` flag is false,
`brook_ps5_input_close` changes no session field, and it makes exactly one
transport call, `hid_hw_close`: the release is not guarded by the flag. -/
theorem input_close_closed (brook : brook_ps5_device) (h : brook.opened = false) :
    (brook_ps5_input_close brook).1 = brook ∧
    (brook_ps5_input_close brook).2.map hid_call.fn = [.hid_hw_close] := by
  obtain ⟨inp, op, b0, b1, lx, ly, rx, ry, lt, rt, dp⟩ := brook
  simp only at h
  subst h
  exact ⟨rfl, rfl⟩

/-- Witness of C12 as amended on a closed session. -/
theorem input_close_closed_witness :
    (sample_session false).opened = false ∧
    (brook_ps5_input_close (sample_session false)).1 = sample_session false ∧
    (brook_ps5_input_close (sample_session false)).2.map hid_call.fn = [.hid_hw_close] :=
  ⟨rfl, input_close_closed (sample_session false) rfl⟩

/-- C13: close is idempotent on the session. For every session,
`brook_ps5_input_close` called twice in succession leaves the same session
as called once: `opened = false`, the input endpoint and the control state
as they were. The function is `void`, so neither call reports an error. -/
theorem input_close_idempotent (brook : brook_ps5_device) :
    (brook_ps5_input_close (brook_ps5_input_close brook).1).1
      = (brook_ps5_input_close brook).1 ∧
    (brook_ps5_input_close brook).1.opened = false ∧
    (brook_ps5_input_close brook).1.input = brook.input ∧
    control_state (brook_ps5_input_close brook).1 = control_state brook ∧
    control_state (brook_ps5_input_close (brook_ps5_input_close brook).1).1
      = control_state brook :=
  ⟨rfl, rfl, rfl, rfl, rfl⟩

/-- Counterexample to C14 as stated: `brook_ps5_remove` on an open session
calls `hid_hw_close` and then `hid_hw_stop` while the `opened` flag is still
true, and leaves it true. -/
theorem remove_opened_counterexample :
    (brook_ps5_remove ⟨some (sample_session true)⟩).2 =
      [⟨.hid_hw_close, some true⟩, ⟨.hid_hw_stop, some true⟩] ∧
    (brook_ps5_remove ⟨some (sample_session true)⟩).1.drvdata.map
      (fun b => b.opened) = some true := by
  decide

/-- C14, as amended: in `brook_ps5_input_close` the `opened` flag is already
false when `hid_hw_close` is called. `brook_ps5_remove` does not write the
flag: each of its calls is made with the flag as it was on entry, its
`hid_hw_close` is made only while the flag is true, and its `hid_hw_stop`
sees the flag false only if the session was already closed. -/
theorem release_opened_flag (brook : brook_ps5_device) (hdev : hid_device) :
    (∀ c ∈ (brook_ps5_input_close brook).2, c.opened = some false) ∧
    (∀ c ∈ (brook_ps5_remove hdev).2, c.opened = hdev.drvdata.map (fun b => b.opened)) ∧
    (∀ c ∈ (brook_ps5_remove hdev).2, c.fn = .hid_hw_close → c.opened = some true) ∧
    (brook_ps5_remove hdev).1 = hdev := by
  refine ⟨?_, ?_, ?_, rfl⟩
  · intro c hc
    simp only [brook_ps5_input_close, List.mem_singleton] at hc
    rw [hc]
  · obtain ⟨drv⟩ := hdev
    cases drv with
    | none => simp [brook_ps5_remove]
    | some b => cases ho : b.opened <;> simp [brook_ps5_remove, ho]
  · obtain ⟨drv⟩ := hdev
    cases drv with
    | none => simp [brook_ps5_remove]
    | some b => cases ho : b.opened <;> simp [brook_ps5_remove, ho]

/-- C15: `brook_ps5_input_open` calls `hid_hw_open` once and returns its
result: on 0 it sets `opened = true`, changes no other field and returns 0; on
a non-zero result it returns that code and leaves the session as it was.
After a `brook_ps5_probe` that returns 0 the session exists with
`opened = false`, and the probe has made no `hid_hw_open` call. -/
theorem input_open_result (brook : brook_ps5_device) (ret : Int) (hdev : hid_device)
    (env : probe_env) :
    (brook_ps5_input_open brook ret).2.2 = ret ∧
    (brook_ps5_input_open brook ret).2.1.map hid_call.fn = [.hid_hw_open] ∧
    (ret = 0 → (brook_ps5_input_open brook ret).1 = { brook with opened := true }) ∧
    (ret ≠ 0 → (brook_ps5_input_open brook ret).1 = brook) ∧
    ((brook_ps5_probe hdev env).2.2 = 0 →
      (∃ b, (brook_ps5_probe hdev env).1.drvdata = some b ∧ b.opened = false) ∧
      hid_fn.hid_hw_open ∉ (brook_ps5_probe hdev env).2.1.map hid_call.fn) := by
  refine ⟨?_, ?_, ?_, ?_, ?_⟩
  · by_cases h : ret = 0 <;> simp [brook_ps5_input_open, h]
  · by_cases h : ret = 0 <;> simp [brook_ps5_input_open, h]
  · intro h; simp [brook_ps5_input_open, h]
  · intro h; simp [brook_ps5_input_open, h]
  · obtain ⟨kz, pr, st, al, rg⟩ := env
    have hE : -ENOMEM ≠ 0 := by decide
    cases kz
    · simp [brook_ps5_probe, hE]
    · by_cases hp : pr = 0
      · by_cases hs : st = 0
        · cases al
          · simp [brook_ps5_probe, brook_ps5_setup_input, hp, hs, hE]
          · by_cases hr : rg = 0
            · simp [brook_ps5_probe, brook_ps5_setup_input, hp, hs, hr,
                brook_ps5_device_zero]
            · simp [brook_ps5_probe, brook_ps5_setup_input, hp, hs, hr]
        · simp [brook_ps5_probe, hp, hs]
      · simp [brook_ps5_probe, hp]

/-- The capabilities `brook_ps5_setup_input` has written once the input
device was allocated, whatever `input_register_device` returns. -/
theorem setup_input_input (brook : brook_ps5_device) (register_ret : Int) :
    ∃ dev : input_dev,
      (brook_ps5_setup_input brook true register_ret).1.input = some dev ∧
      dev.keybit = [BTN_MODE, BTN_THUMBR, BTN_THUMBL, BTN_START, BTN_SELECT, BTN_TR2,
        BTN_TL2, BTN_TR, BTN_TL, BTN_Y, BTN_X, BTN_B, BTN_A] ∧
      dev.absbit = [ABS_HAT0Y, ABS_HAT0X, ABS_RZ, ABS_Z, ABS_RY, ABS_RX, ABS_Y, ABS_X] ∧
      dev.evbit = [EV_ABS, EV_ABS, EV_ABS, EV_ABS, EV_ABS, EV_ABS, EV_ABS, EV_ABS,
        EV_ABS, EV_KEY] ∧
      dev.absinfo = [(ABS_HAT0Y, ⟨-1, 1, 0, 0⟩), (ABS_HAT0X, ⟨-1, 1, 0, 0⟩),
        (ABS_RZ, ⟨0, 255, 0, 0⟩), (ABS_Z, ⟨0, 255, 0, 0⟩), (ABS_RY, ⟨0, 255, 0, 0⟩),
        (ABS_RX, ⟨0, 255, 0, 0⟩), (ABS_Y, ⟨0, 255, 0, 0⟩), (ABS_X, ⟨0, 255, 0, 0⟩)] := by
  unfold brook_ps5_setup_input
  simp only [Bool.not_true, Bool.false_eq_true, if_false]
  split
  · exact ⟨_, rfl, rfl, rfl, rfl, rfl⟩
  · exact ⟨_, rfl, rfl, rfl, rfl, rfl⟩

/-- C16: once the input device is allocated, `brook_ps5_setup_input`
advertises exactly the thirteen keys `BTN_A`, `BTN_B`, `BTN_X`, `BTN_Y`,
`BTN_TL`, `BTN_TR`, `BTN_TL2`, `BTN_TR2`, `BTN_SELECT`, `BTN_START`,
`BTN_THUMBL`, `BTN_THUMBR`, `BTN_MODE` and exactly the eight axes `ABS_X`,
`ABS_Y`, `ABS_RX`, `ABS_RY`, `ABS_Z`, `ABS_RZ`, `ABS_HAT0X`, `ABS_HAT0Y`, with
range 0..255 for the four stick and two trigger axes and range -1..1 for the
two hat axes; no other axis has parameters, and the event types marked are
`EV_KEY` and `EV_ABS`. -/
theorem setup_input_capabilities (brook : brook_ps5_device) (register_ret : Int) :
    ∃ dev : input_dev,
      (brook_ps5_setup_input brook true register_ret).1.input = some dev ∧
      (∀ c, c ∈ dev.keybit ↔
        c ∈ [BTN_A, BTN_B, BTN_X, BTN_Y, BTN_TL, BTN_TR, BTN_TL2, BTN_TR2, BTN_SELECT,
          BTN_START, BTN_THUMBL, BTN_THUMBR, BTN_MODE]) ∧
      dev.keybit.length = 13 ∧
      (∀ a, a ∈ dev.absbit ↔
        a ∈ [ABS_X, ABS_Y, ABS_RX, ABS_RY, ABS_Z, ABS_RZ, ABS_HAT0X, ABS_HAT0Y]) ∧
      dev.absbit.length = 8 ∧
      (∀ a ∈ [ABS_X, ABS_Y, ABS_RX, ABS_RY, ABS_Z, ABS_RZ],
        dev.absinfo.lookup a = some ⟨0, 255, 0, 0⟩) ∧
      (∀ a ∈ [ABS_HAT0X, ABS_HAT0Y], dev.absinfo.lookup a = some ⟨-1, 1, 0, 0⟩) ∧
      (∀ a, a ∉ [ABS_X, ABS_Y, ABS_RX, ABS_RY, ABS_Z, ABS_RZ, ABS_HAT0X, ABS_HAT0Y] →
        dev.absinfo.lookup a = none) ∧
      (∀ e, e ∈ dev.evbit ↔ e = EV_KEY ∨ e = EV_ABS) := by
  obtain ⟨dev, hdev, hk, ha, he, hi⟩ := setup_input_input brook register_ret
  refine ⟨dev, hdev, ?_, ?_, ?_, ?_, ?_, ?_, ?_, ?_⟩
  · intro c
    rw [hk]
    simp only [List.mem_cons, List.mem_singleton, List.not_mem_nil, or_false]
    tauto
  · rw [hk]; rfl
  · intro a
    rw [ha]
    simp only [List.mem_cons, List.mem_singleton, List.not_mem_nil, or_false]
    tauto
  · rw [ha]; rfl
  · rw [hi]; decide
  · rw [hi]; decide
  · intro a hna
    rw [hi]
    simp only [List.mem_cons, List.mem_singleton, List.not_mem_nil, or_false, not_or] at hna
    obtain ⟨h0, h1, h2, h3, h4, h5, h6, h7⟩ := hna
    have b0 : (a == ABS_X) = false := beq_eq_false_iff_ne.mpr h0
    have b1 : (a == ABS_Y) = false := beq_eq_false_iff_ne.mpr h1
    have b2 : (a == ABS_RX) = false := beq_eq_false_iff_ne.mpr h2
    have b3 : (a == ABS_RY) = false := beq_eq_false_iff_ne.mpr h3
    have b4 : (a == ABS_Z) = false := beq_eq_false_iff_ne.mpr h4
    have b5 : (a == ABS_RZ) = false := beq_eq_false_iff_ne.mpr h5
    have b6 : (a == ABS_HAT0X) = false := beq_eq_false_iff_ne.mpr h6
    have b7 : (a == ABS_HAT0Y) = false := beq_eq_false_iff_ne.mpr h7
    simp only [List.lookup, b0, b1, b2, b3, b4, b5, b6, b7]
  · intro e
    rw [he]
    simp only [List.mem_cons, List.mem_singleton, List.not_mem_nil, or_false]
    tauto

/-- C17: scenario B, end to end. From a device with no session, a
`brook_ps5_probe` in which every kernel service succeeds returns 0 and leaves
a session with `opened = false`; `brook_ps5_input_open` with `hid_hw_open`
returning 0 then returns 0 and leaves `opened = true`; any 4-byte report
dispatched through `brook_ps5_raw_event` then makes no call and changes
nothing; `brook_ps5_remove` then calls `hid_hw_close` once and `hid_hw_stop`
exactly once, in that order. -/
theorem scenario_b (a b c d : u8) :
    ∃ s0 s1 : brook_ps5_device,
      (brook_ps5_probe ⟨none⟩ probe_env_ok).2.2 = 0 ∧
      (brook_ps5_probe ⟨none⟩ probe_env_ok).1.drvdata = some s0 ∧
      s0.opened = false ∧
      (brook_ps5_input_open s0 0).2.2 = 0 ∧
      (brook_ps5_input_open s0 0).1 = s1 ∧
      s1.opened = true ∧
      (brook_ps5_raw_event ⟨some s1⟩ [a, b, c, d]).2.1 = [] ∧
      (brook_ps5_raw_event ⟨some s1⟩ [a, b, c, d]).1 = ⟨some s1⟩ ∧
      (brook_ps5_remove ⟨some s1⟩).2.map hid_call.fn = [.hid_hw_close, .hid_hw_stop] ∧
      ((brook_ps5_remove ⟨some s1⟩).2.map hid_call.fn).count .hid_hw_close = 1 ∧
      ((brook_ps5_remove ⟨some s1⟩).2.map hid_call.fn).count .hid_hw_stop = 1 :=
  ⟨_, _, rfl, rfl, rfl, rfl, rfl, rfl, rfl, rfl, rfl, rfl, rfl⟩

/-- C18: the dispatch guard. `brook_ps5_raw_event` returns 0 on every input.
When the device has no session, or the session has no input endpoint, it
makes no call and leaves the device as it was, for every report, so the
decoder is not reached; when both are present its effect is exactly that of
`brook_ps5_parse_report` on the same session and report. -/
theorem raw_event_guard (hdev : hid_device) (data : List u8) :
    (brook_ps5_raw_event hdev data).2.2 = 0 ∧
    (hdev.drvdata = none → brook_ps5_raw_event hdev data = (hdev, [], 0)) ∧
    (∀ brook, hdev.drvdata = some brook → brook.input = none →
      brook_ps5_raw_event hdev data = (hdev, [], 0)) ∧
    (∀ brook dev, hdev.drvdata = some brook → brook.input = some dev →
      brook_ps5_raw_event hdev data =
        (⟨some (brook_ps5_parse_report brook data).1⟩,
          (brook_ps5_parse_report brook data).2, 0)) := by
  obtain ⟨drv⟩ := hdev
  refine ⟨?_, ?_, ?_, ?_⟩
  · cases drv with
    | none => rfl
    | some brook =>
      rcases Option.eq_none_or_eq_some brook.input with hin | ⟨dev, hin⟩
      · simp [brook_ps5_raw_event, hin]
      · rw [raw_event_some brook dev data hin]
  · intro h
    simp only at h
    subst h
    rfl
  · intro brook h hin
    simp only at h
    subst h
    simp [brook_ps5_raw_event, hin]
  · intro brook dev h hin
    simp only at h
    subst h
    exact raw_event_some brook dev data hin

/-- The dpad nibble of a byte is at least 8 exactly when bit 3 is set. -/
theorem nibble_ge_eight (b : u8) : decide (8 ≤ b.val &&& 0x0f) = b.val.testBit 3 := by
  have hle : b.val &&& 0x0f ≤ 0x0f := Nat.and_le_right
  have hbit := and_two_pow_ne_zero b.val 3
  have hand : (b.val &&& 0x0f) &&& 2 ^ 3 = b.val &&& 2 ^ 3 := by
    rw [Nat.and_assoc]
    rfl
  rw [← hbit, ← hand]
  generalize b.val &&& 0x0f = n at hle
  interval_cases n <;> decide

/-- The switch on the dpad makes one `ABS_HAT0X` and one `ABS_HAT0Y` report,
each with a value between -1 and 1. -/
theorem report_dpad_eq (d : Nat) :
    ∃ hx hy : Int,
      report_dpad d = [.input_report_abs ABS_HAT0X hx, .input_report_abs ABS_HAT0Y hy] ∧
      -1 ≤ hx ∧ hx ≤ 1 ∧ -1 ≤ hy ∧ hy ≤ 1 := by
  unfold report_dpad
  repeat' split
  all_goals exact ⟨_, _, rfl, by decide, by decide, by decide, by decide⟩

/-- The hat pair of a decoded report is the one its dpad switch reports. -/
theorem emitted_hat_parse_report (brook : brook_ps5_device) (data : List u8)
    (h : 12 ≤ data.length) :
    ∃ b7 : u8, data[7]? = some b7 ∧
      emitted_hat (brook_ps5_parse_report brook data).2
        = emitted_hat (report_dpad (b7.val &&& 0x0f)) := by
  obtain ⟨b1, b2, b3, b4, b5, b6, b7, b8, -, -, -, -, -, -, h7, -, heq⟩ :=
    parse_report_eq brook data h
  refine ⟨b7, h7, ?_⟩
  rw [heq]
  have hle : b7.val &&& 0x0f ≤ 0x0f := Nat.and_le_right
  have hmod : (b7.val &&& 0x0f) % 256 = b7.val &&& 0x0f := Nat.mod_eq_of_lt (by omega)
  dsimp only
  rw [hmod]
  obtain ⟨hx, hy, hd, -⟩ := report_dpad_eq (b7.val &&& 0x0f)
  rw [hd]
  rfl

/-- C19: the dpad nibble shares byte 7 with the shoulder bits, so on a
report of at least 12 bytes the hat pair reported is Neutral (0,0) if and
only if `BTN_TL` (L1, bit 0x08 of byte 7) is reported pressed; in particular
a report with byte 7 = 0, no button pressed, reports hat Up (0,-1). -/
theorem hat_neutral_iff_l1 (brook : brook_ps5_device) (data : List u8)
    (h : 12 ≤ data.length) :
    (emitted_hat (brook_ps5_parse_report brook data).2 = ([0], [0]) ↔
      key_pressed BTN_TL (brook_ps5_parse_report brook data).2 = [true]) ∧
    (data[7]? = some 0 →
      emitted_hat (brook_ps5_parse_report brook data).2 = ([0], [-1]) ∧
      key_pressed BTN_TL (brook_ps5_parse_report brook data).2 = [false]) := by
  obtain ⟨c7, c8, g7, -, hkeys⟩ := key_pressed_parse_report brook data h
  obtain ⟨b7, h7, hhat⟩ := emitted_hat_parse_report brook data h
  have e7 : c7 = b7 := Option.some.inj (g7.symm.trans h7)
  subst e7
  have hTL : key_pressed BTN_TL (brook_ps5_parse_report brook data).2
      = [c7.val.testBit 3] := by
    rw [hkeys]; rfl
  rw [hTL, hhat]
  constructor
  · rw [← nibble_ge_eight c7]
    have hle : c7.val &&& 0x0f ≤ 0x0f := Nat.and_le_right
    generalize c7.val &&& 0x0f = n at hle
    interval_cases n <;> decide
  · intro h0
    have e0 : c7 = 0 := Option.some.inj (h7.symm.trans h0)
    subst e0
    exact ⟨rfl, rfl⟩

/-- C20: every call `brook_ps5_parse_report` makes, on every report and
from every session, is within what `brook_ps5_setup_input` advertised on the
input device it configured: each key report names one of the thirteen
advertised keys, each axis report names one of the eight advertised axes with
a value inside the advertised range of that axis, so every stick or trigger
value lies in 0..255 and every hat value in -1..1. -/
theorem parse_report_advertised (setup : brook_ps5_device) (register_ret : Int)
    (brook : brook_ps5_device) (data : List u8) :
    ∃ dev : input_dev,
      (brook_ps5_setup_input setup true register_ret).1.input = some dev ∧
      (∀ e ∈ (brook_ps5_parse_report brook data).2, advertised dev e = true) ∧
      (∀ c v, .input_report_key c v ∈ (brook_ps5_parse_report brook data).2 →
        c ∈ [BTN_A, BTN_B, BTN_X, BTN_Y, BTN_TL, BTN_TR, BTN_TL2, BTN_TR2, BTN_SELECT,
          BTN_START, BTN_THUMBL, BTN_THUMBR, BTN_MODE]) ∧
      (∀ c v, .input_report_abs c v ∈ (brook_ps5_parse_report brook data).2 →
        (c ∈ [ABS_X, ABS_Y, ABS_RX, ABS_RY, ABS_Z, ABS_RZ] ∧ 0 ≤ v ∧ v ≤ 255) ∨
        (c ∈ [ABS_HAT0X, ABS_HAT0Y] ∧ -1 ≤ v ∧ v ≤ 1)) := by
  obtain ⟨dev, hdev, hk, ha, -, hi⟩ := setup_input_input setup register_ret
  refine ⟨dev, hdev, ?_⟩
  by_cases hlen : data.length < 12
  · rw [parse_report_of_lt brook data hlen]
    simp
  · obtain ⟨b1, b2, b3, b4, b5, b6, b7, b8, -, -, -, -, -, -, -, -, heq⟩ :=
      parse_report_eq brook data (by omega)
    obtain ⟨hx, hy, hd, hx0, hx1, hy0, hy1⟩ := report_dpad_eq ((b7.val &&& 0x0f) % 256)
    rw [heq]
    dsimp only
    rw [hd]
    have l1 := b1.isLt
    have l2 := b2.isLt
    have l3 := b3.isLt
    have l4 := b4.isLt
    have l5 := b5.isLt
    have l6 := b6.isLt
    have adv_abs : ∀ (c : Nat) (lo hi v : Int), c ∈ dev.absbit →
        dev.absinfo.lookup c = some ⟨lo, hi, 0, 0⟩ → lo ≤ v → v ≤ hi →
        advertised dev (.input_report_abs c v) = true := by
      intro c lo hi v hc hl h1 h2
      simp [advertised, hc, hl, h1, h2]
    have adv_key : ∀ (c : Nat) (v : Int), c ∈ dev.keybit →
        advertised dev (.input_report_key c v) = true := by
      intro c v hc
      simp [advertised, hc]
    refine ⟨?_, ?_, ?_⟩
    · simp only [List.cons_append, List.nil_append, List.forall_mem_cons]
      refine ⟨?_, ?_, ?_, ?_, ?_, ?_, ?_, ?_, ?_, ?_, ?_, ?_, ?_, ?_, ?_, ?_, ?_, ?_, ?_, ?_,
        ?_, ?_, ?_⟩
      · exact adv_abs _ 0 255 _ (by rw [ha]; decide) (by rw [hi]; rfl) (by omega) (by omega)
      · exact adv_abs _ 0 255 _ (by rw [ha]; decide) (by rw [hi]; rfl) (by omega) (by omega)
      · exact adv_abs _ 0 255 _ (by rw [ha]; decide) (by rw [hi]; rfl) (by omega) (by omega)
      · exact adv_abs _ 0 255 _ (by rw [ha]; decide) (by rw [hi]; rfl) (by omega) (by omega)
      · exact adv_abs _ 0 255 _ (by rw [ha]; decide) (by rw [hi]; rfl) (by omega) (by omega)
      · exact adv_abs _ 0 255 _ (by rw [ha]; decide) (by rw [hi]; rfl) (by omega) (by omega)
      · exact adv_key _ _ (by rw [hk]; decide)
      · exact adv_key _ _ (by rw [hk]; decide)
      · exact adv_key _ _ (by rw [hk]; decide)
      · exact adv_key _ _ (by rw [hk]; decide)
      · exact adv_key _ _ (by rw [hk]; decide)
      · exact adv_key _ _ (by rw [hk]; decide)
      · exact adv_key _ _ (by rw [hk]; decide)
      · exact adv_key _ _ (by rw [hk]; decide)
      · exact adv_key _ _ (by rw [hk]; decide)
      · exact adv_key _ _ (by rw [hk]; decide)
      · exact adv_key _ _ (by rw [hk]; decide)
      · exact adv_key _ _ (by rw [hk]; decide)
      · exact adv_key _ _ (by rw [hk]; decide)
      · exact adv_abs _ (-1) 1 _ (by rw [ha]; decide) (by rw [hi]; rfl) hx0 hx1
      · exact adv_abs _ (-1) 1 _ (by rw [ha]; decide) (by rw [hi]; rfl) hy0 hy1
      · rfl
      · intro x hx
        cases hx
    · intro c v hmem
      simp only [List.cons_append, List.nil_append, List.mem_cons, List.not_mem_nil, or_false,
        input_call.input_report_key.injEq, and_false, false_or] at hmem
      simp only [List.mem_cons, List.not_mem_nil, or_false]
      have hmem2 := hmem
      simp only [reduceCtorEq, or_false, false_or] at hmem2
      rcases hmem2 with h | h | h | h | h | h | h | h | h | h | h | h | h <;>
        simp [h.1]
    · intro c v hmem
      simp only [List.cons_append, List.nil_append, List.mem_cons, List.not_mem_nil, or_false,
        input_call.input_report_abs.injEq, reduceCtorEq, false_or] at hmem
      simp only [List.mem_cons, List.not_mem_nil, or_false]
      rcases hmem with h | h | h | h | h | h | h | h <;>
        (obtain ⟨hc, hv⟩ := h; subst hc hv; simp; omega)

/-- Witness of C19 on the 12-byte scenario A report, whose byte 7 is 0x20. -/
theorem hat_neutral_iff_l1_witness :
    12 ≤ scenario_a_report.length ∧
    ((emitted_hat (brook_ps5_parse_report (sample_session true) scenario_a_report).2
        = ([0], [0]) ↔
      key_pressed BTN_TL (brook_ps5_parse_report (sample_session true) scenario_a_report).2
        = [true]) ∧
    (scenario_a_report[7]? = some 0 →
      emitted_hat (brook_ps5_parse_report (sample_session true) scenario_a_report).2
        = ([0], [-1]) ∧
      key_pressed BTN_TL (brook_ps5_parse_report (sample_session true) scenario_a_report).2
        = [false])) :=
  ⟨by decide, hat_neutral_iff_l1 (sample_session true) scenario_a_report (by decide)⟩

end BrookPS5
